import Mathlib

set_option maxHeartbeats 1000000

namespace BenefitApp

/-- A single cell value of a tabular record: absent/NaN, text, or numeric.
Numeric values are modelled as rationals. -/
inductive Value where
  | null
  | str (s : String)
  | num (q : ℚ)
deriving DecidableEq

/-- One row of a table: an association list from column label to cell value.
A label that is absent behaves like a NaN cell (pandas rows of a concatenated
frame carry NaN in columns their source file lacked). -/
abbrev Row := List (String × Value)

/-- Look up a cell; an absent label reads as a null/NaN cell. -/
def Row.get (r : Row) (k : String) : Value :=
  match r with
  | [] => Value.null
  | p :: rest => if p.1 = k then p.2 else Row.get rest k

/-- Write a cell, replacing an existing binding or appending a new one. -/
def Row.set (r : Row) (k : String) (v : Value) : Row :=
  match r with
  | [] => [(k, v)]
  | p :: rest => if p.1 = k then (k, v) :: rest else p :: Row.set rest k v

/-- A dataframe: the list of column labels plus the list of rows. -/
structure DFrame where
  cols : List String
  rows : List Row
deriving DecidableEq

/-- pandas `df.empty`: true when either axis has length zero. -/
def DFrame.isEmpty (df : DFrame) : Bool :=
  df.rows.isEmpty || df.cols.isEmpty

def emptyDF : DFrame := ⟨[], []⟩

/-! ## DataProcessorAgent (src/agents/data_processor_agent.py) -/

/-- The `column_mapping` dict of `unify_dataframes`. -/
def column_mapping : List (String × String) :=
  [("matricula", "MATRICULA"), ("empresa", "EMPRESA"),
   ("titulo_cargo", "TITULO DO CARGO"), ("desc_situacao", "DESC. SITUACAO"),
   ("sindicato", "Sindicato")]

/-- ASCII lowercasing, applied character by character.  (The mapping keys are
ASCII, so this coincides with Python `str.lower` wherever a lookup can hit.) -/
def lowerAscii (s : String) : String := String.mk (s.data.map Char.toLower)

/-- `column_mapping.get(str(col).lower(), col)`. -/
def renameCol (c : String) : String :=
  match column_mapping.find? (fun p => p.1 == lowerAscii c) with
  | some p => p.2
  | none => c

/-- Column standardization applied to one source frame. -/
def standardize (df : DFrame) : DFrame :=
  ⟨df.cols.map renameCol, df.rows.map (fun r => r.map (fun p => (renameCol p.1, p.2)))⟩

/-- Column set of `pd.concat`: union of the frames' columns, in order of first
appearance. -/
def unionCols (dfs : List DFrame) : List String :=
  dfs.foldl (fun acc df => acc ++ df.cols.filter (fun c => decide (c ∉ acc))) []

/-- `pd.concat(standardized_dfs, ignore_index=True)`: rows in file order, with
the union of the columns (a row simply lacks the labels its file did not have,
which reads back as null). -/
def concatDF (dfs : List DFrame) : DFrame :=
  ⟨unionCols dfs, (dfs.map DFrame.rows).flatten⟩

/-- `drop_duplicates(subset=[k], keep='first')`: keep a row only when its key
cell has not been seen before.  pandas compares NaN keys as equal, which the
`Value.null = Value.null` case reproduces. -/
def dedupByKey (k : String) : List Row → List Value → List Row
  | [], _ => []
  | r :: rest, seen =>
    if Row.get r k ∈ seen then dedupByKey k rest seen
    else r :: dedupByKey k rest (Row.get r k :: seen)

/-- `DataProcessorAgent.unify_dataframes`. -/
def unify_dataframes (dfs : List DFrame) : Except String DFrame :=
  if dfs.isEmpty then Except.error "Nenhum DataFrame válido encontrado para unificar"
  else
    let unified := concatDF (dfs.map standardize)
    if "MATRICULA" ∈ unified.cols then
      Except.ok ⟨unified.cols, dedupByKey "MATRICULA" unified.rows []⟩
    else Except.ok unified

structure ProcessorResult where
  success : Bool
  unified_df : DFrame
  total_files : ℕ
  total_records : ℕ
  columns : List String
  error : Option String
deriving DecidableEq

/-- `DataProcessorAgent.process`.  The argument is the list of tables parsed
out of the bundle (one per readable file); `extract_zip_file` keeps only the
non-empty ones, which the filter reproduces. -/
def DataProcessorAgent.process (files : List DFrame) : ProcessorResult :=
  let dataframes := files.filter (fun df => !df.isEmpty)
  match unify_dataframes dataframes with
  | Except.ok u => ⟨true, u, dataframes.length, u.rows.length, u.cols, none⟩
  | Except.error e => ⟨false, emptyDF, 0, 0, [], some e⟩

/-! ## EligibilityCalculatorAgent (src/agents/eligibility_calculator_agent.py) -/

def sindicato_ajustes : List (String × ℚ) :=
  [("SP", 50), ("RJ", 70), ("PR", 60), ("RS", 80)]

def cargos_inelegiveis : List String := ["Estagiário", "Aprendiz", "Diretor"]

def status_inelegiveis : List String := ["Afastado", "Demitido"]

def locais_inelegiveis : List String := ["Exterior"]

/-- One ineligibility check of `apply_eligibility_rules`:
`if col in row and pd.notna(row[col]) and row[col] in excl: motivos.append(lab + ": " + row[col])`.
A non-string cell value never compares equal to the (string) policy entries. -/
def checkRule (cols : List String) (r : Row) (col lab : String) (excl : List String) :
    List String :=
  if col ∈ cols then
    match r.get col with
    | Value.str s => if s ∈ excl then [lab ++ ": " ++ s] else []
    | _ => []
  else []

/-- The `motivos` list accumulated for one row, in source order
(cargo, then status, then sindicato). -/
def rowMotivos (cols : List String) (r : Row) : List String :=
  checkRule cols r "Cargo" "Cargo" cargos_inelegiveis
    ++ checkRule cols r "Status" "Status" status_inelegiveis
    ++ checkRule cols r "Sindicato" "Localização" locais_inelegiveis

/-- Python `sep.join(parts)`. -/
def joinStrs (sep : String) : List String → String
  | [] => ""
  | [a] => a
  | a :: b :: rest => a ++ sep ++ joinStrs sep (b :: rest)

/-- Adding a column label, as pandas column assignment does (appended at the
end when new). -/
def addCol (cols : List String) (k : String) : List String :=
  if k ∈ cols then cols else cols ++ [k]

/-- Per-row body of `apply_eligibility_rules`: initialize `Elegivel='Sim'` and
`Motivo_Inelegibilidade=''`, then overwrite both when any rule matched. -/
def ruleRow (cols : List String) (r : Row) : Row :=
  let r1 := (r.set "Elegivel" (Value.str "Sim")).set "Motivo_Inelegibilidade" (Value.str "")
  let motivos := rowMotivos cols r1
  if motivos.isEmpty then r1
  else (r1.set "Elegivel" (Value.str "Não")).set "Motivo_Inelegibilidade"
        (Value.str (joinStrs "; " motivos))

/-- The column set after `apply_eligibility_rules` added its two columns. -/
def rulesCols (cols : List String) : List String :=
  addCol (addCol cols "Elegivel") "Motivo_Inelegibilidade"

/-- `EligibilityCalculatorAgent.apply_eligibility_rules`. -/
def apply_eligibility_rules (df : DFrame) : DFrame :=
  ⟨rulesCols df.cols, df.rows.map (ruleRow (rulesCols df.cols))⟩

def digitsToNat (l : List Char) : ℕ :=
  l.foldl (fun n c => 10 * n + (c.toNat - 48)) 0

/-- Python `float(s)` on a decimal literal (optional sign, digits, optional
fractional part); `none` when the conversion raises `ValueError`. -/
def parseNum (s : String) : Option ℚ :=
  let t := s.trim
  let core := if t.startsWith "-" ∨ t.startsWith "+" then t.drop 1 else t
  let sign : ℚ := if t.startsWith "-" then -1 else 1
  match core.splitOn "." with
  | [ip] =>
      if ip.length > 0 ∧ ip.data.all Char.isDigit then
        some (sign * (digitsToNat ip.data : ℚ))
      else none
  | [ip, fp] =>
      if (ip.length > 0 ∨ fp.length > 0) ∧ ip.data.all Char.isDigit ∧ fp.data.all Char.isDigit
      then some (sign * ((digitsToNat ip.data : ℚ) + (digitsToNat fp.data : ℚ) / 10 ^ fp.length))
      else none
  | _ => none

/-- `float(valor_base) if pd.notna(valor_base) else 0`, with `ValueError`
defaulted to 0, and the `row.get(..., 0)` default for an absent column. -/
def Value.toBase : Value → ℚ
  | Value.null => 0
  | Value.num q => q
  | Value.str s => (parseNum s).getD 0

/-- `self.sindicato_ajustes.get(sindicato, 0)` applied to the raw cell. -/
def lookupAdj (v : Value) : ℚ :=
  match v with
  | Value.str s =>
      match sindicato_ajustes.find? (fun p => p.1 == s) with
      | some p => p.2
      | none => 0
  | _ => 0

/-- Per-row body of `calculate_benefits`: both payout columns initialized to 0,
then recomputed only for rows with `Elegivel == 'Sim'`. -/
def benefitRow (r : Row) : Row :=
  let r1 := (r.set "Ajuste_Sindicato" (Value.num 0)).set "Valor_Beneficio_Final" (Value.num 0)
  if r1.get "Elegivel" = Value.str "Sim" then
    let ajuste := lookupAdj (r1.get "Sindicato")
    let base := (r1.get "Valor_Beneficio_Base").toBase
    (r1.set "Ajuste_Sindicato" (Value.num ajuste)).set "Valor_Beneficio_Final"
      (Value.num (base + ajuste))
  else r1

/-- `EligibilityCalculatorAgent.calculate_benefits`.  Reading the mask
`df_copy['Elegivel'] == 'Sim'` raises `KeyError` when the column is absent;
that exception surfaces as the engine-level error string. -/
def calculate_benefits (df : DFrame) : Except String DFrame :=
  if "Elegivel" ∈ df.cols then
    Except.ok ⟨addCol (addCol df.cols "Ajuste_Sindicato") "Valor_Beneficio_Final",
               df.rows.map benefitRow⟩
  else Except.error "\x27Elegivel\x27"

/-- pandas column sum (`.sum()` skips NaN, contributing 0). -/
def Value.toQ : Value → ℚ
  | Value.num q => q
  | _ => 0

def colSum (rows : List Row) (k : String) : ℚ :=
  rows.foldl (fun acc r => acc + (r.get k).toQ) 0

structure SindicatoSummary where
  funcionarios : ℕ
  total_beneficio : ℚ
deriving DecidableEq

structure Summary where
  total_funcionarios : ℕ
  funcionarios_elegiveis : ℕ
  funcionarios_inelegiveis : ℕ
  total_beneficio_geral : ℚ
  resumo_por_sindicato : List (String × SindicatoSummary)
deriving DecidableEq

/-- The summary record built by `generate_summary` once the column accesses
went through. -/
def summaryOf (df : DFrame) : Summary :=
  let eligible := df.rows.filter (fun r => decide (r.get "Elegivel" = Value.str "Sim"))
  { total_funcionarios := df.rows.length
    funcionarios_elegiveis := eligible.length
    funcionarios_inelegiveis := df.rows.length - eligible.length
    total_beneficio_geral := colSum eligible "Valor_Beneficio_Final"
    resumo_por_sindicato := sindicato_ajustes.map (fun p =>
      let srows := eligible.filter (fun r => decide (r.get "Sindicato" = Value.str p.1))
      (p.1, ⟨srows.length, colSum srows "Valor_Beneficio_Final"⟩)) }

/-- `EligibilityCalculatorAgent.generate_summary`.  The column accesses
`df['Elegivel']`, `eligible_df['Valor_Beneficio_Final']` and
`eligible_df['Sindicato']` raise `KeyError` when the column is absent, in that
source order. -/
def generate_summary (df : DFrame) : Except String Summary :=
  if "Elegivel" ∉ df.cols then Except.error "\x27Elegivel\x27"
  else if "Valor_Beneficio_Final" ∉ df.cols then Except.error "\x27Valor_Beneficio_Final\x27"
  else if "Sindicato" ∉ df.cols then Except.error "\x27Sindicato\x27"
  else Except.ok (summaryOf df)

/-- Python `s.split(';')` at character-list level (single-character separator,
empty parts kept). -/
def splitChar (c : Char) : List Char → List (List Char)
  | [] => [[]]
  | x :: xs =>
    if x = c then [] :: splitChar c xs
    else
      match splitChar c xs with
      | [] => [[x]]
      | p :: ps => (x :: p) :: ps

def splitSemicolon (s : String) : List String :=
  (splitChar ';' s.data).map String.mk

def isSpaceChar (c : Char) : Bool :=
  c == ' ' || c == '\t' || c == '\n' || c == '\r'

/-- Python `s.strip()` (the reason labels only ever carry ASCII blanks at the
edges). -/
def strip (s : String) : String :=
  String.mk (((s.data.dropWhile isSpaceChar).reverse.dropWhile isSpaceChar).reverse)

/-- `motivos[m] = motivos.get(m, 0) + 1` on an insertion-ordered dict. -/
def countInsert : List (String × ℕ) → String → List (String × ℕ)
  | [], k => [(k, 1)]
  | p :: rest, k => if p.1 = k then (p.1, p.2 + 1) :: rest else p :: countInsert rest k

/-- `EligibilityCalculatorAgent.get_ineligibility_breakdown`.  Only rows whose
reason cell is a non-empty string contribute (through the engine that is every
ineligible row; a numeric cell cannot reach this point because
`apply_eligibility_rules` overwrites the column with strings). -/
def breakdownStep (acc : List (String × ℕ)) (r : Row) : List (String × ℕ) :=
  match r.get "Motivo_Inelegibilidade" with
  | Value.str s =>
      if s = "" then acc
      else (splitSemicolon s).foldl (fun a2 m => countInsert a2 (strip m)) acc
  | _ => acc

/-- The reason histogram built by `get_ineligibility_breakdown` once the
column accesses went through. -/
def breakdownOf (df : DFrame) : List (String × ℕ) :=
  (df.rows.filter (fun r => decide (r.get "Elegivel" = Value.str "Não"))).foldl breakdownStep []

def get_ineligibility_breakdown (df : DFrame) : Except String (List (String × ℕ)) :=
  if "Elegivel" ∉ df.cols then Except.error "\x27Elegivel\x27"
  else
    let ineligible := df.rows.filter (fun r => decide (r.get "Elegivel" = Value.str "Não"))
    if ineligible.isEmpty then Except.ok []
    else if "Motivo_Inelegibilidade" ∉ df.cols then
      Except.error "\x27Motivo_Inelegibilidade\x27"
    else Except.ok (breakdownOf df)

/-- Total of all histogram counts. -/
def sumCounts (l : List (String × ℕ)) : ℕ := (l.map (fun p => p.2)).sum

structure EngineResult where
  success : Bool
  processed_df : DFrame
  summary : Option Summary
  ineligibility_breakdown : List (String × ℕ)
  error : Option String
deriving DecidableEq

/-- `EligibilityCalculatorAgent.process`; an exception escaping any step is
returned as the catch-all failure record with empty payload. -/
def EligibilityCalculatorAgent.process (unified : DFrame) : EngineResult :=
  if unified.isEmpty then
    ⟨false, emptyDF, none, [], some "DataFrame vazio fornecido"⟩
  else
    let eligible_df := apply_eligibility_rules unified
    match calculate_benefits eligible_df with
    | Except.error e => ⟨false, emptyDF, none, [], some e⟩
    | Except.ok final_df =>
      match generate_summary final_df with
      | Except.error e => ⟨false, emptyDF, none, [], some e⟩
      | Except.ok summ =>
        match get_ineligibility_breakdown final_df with
        | Except.error e => ⟨false, emptyDF, none, [], some e⟩
        | Except.ok bd => ⟨true, final_df, some summ, bd, none⟩

/-! ## AnalysisAgent (src/agents/analysis_agent.py) -/

/-- The three narrative texts produced for the result dictionary. -/
structure GeminiTexts where
  detailed_analysis : String
  executive_summary : String
  eligibility_explanation : String
deriving DecidableEq

structure AnalysisResult where
  success : Bool
  gemini_analysis : GeminiTexts
  error : Option String
deriving DecidableEq

/-- The placeholder texts returned when no API key is configured. -/
def unavailableTexts : GeminiTexts :=
  ⟨"Análise com IA não disponível. Configure a chave da API do Google Gemini.",
   "Resumo executivo não disponível. Configure a chave da API do Google Gemini.",
   "Explicação de critérios não disponível. Configure a chave da API do Google Gemini."⟩

/-- `AnalysisAgent.process`.  `available` is `is_available()` (an API key is
configured and the model object was built).  When available, the three
sub-calls each return a string no matter what: the text produced by the
external model, or a textual `Erro ...` placeholder when the individual call
raised — either way `success` is `True` and `error` is `None`.  `texts` stands
for those three externally produced strings. -/
def AnalysisAgent.process (available : Bool) (texts : GeminiTexts) : AnalysisResult :=
  if available then ⟨true, texts, none⟩
  else ⟨false, unavailableTexts, some "API key do Google Gemini não configurada"⟩

/-! ## CoordinatorAgent (src/agents/coordinator_agent.py) -/

structure CoordResult where
  success : Bool
  processed_df : DFrame
  summary : Option Summary
  ineligibility_breakdown : List (String × ℕ)
  gemini_analysis : Option GeminiTexts
  error : Option String
deriving DecidableEq

/-- `CoordinatorAgent.process`: run `_process_data_node`, then
`_calculate_benefits_node`, then — when no error is pending and `use_gemini`
is set — `_analyze_with_gemini_node`; finally assemble the result dictionary
with `success := error is None`.  `none` models the `{}` defaults of the
initial graph state.  `files` is the list of tables parsed from the bundle and
`available`/`texts` parameterize the external Gemini collaborator as in
`AnalysisAgent.process`. -/
def CoordinatorAgent.process (files : List DFrame) (use_gemini : Bool)
    (available : Bool) (texts : GeminiTexts) : CoordResult :=
  let pr := DataProcessorAgent.process files
  if pr.success then
    let er := EligibilityCalculatorAgent.process pr.unified_df
    if er.success then
      if use_gemini then
        let ar := AnalysisAgent.process available texts
        ⟨ar.error.isNone, er.processed_df, er.summary, er.ineligibility_breakdown,
         some ar.gemini_analysis, ar.error⟩
      else
        ⟨true, er.processed_df, er.summary, er.ineligibility_breakdown, none, none⟩
    else ⟨er.error.isNone, emptyDF, none, [], none, er.error⟩
  else ⟨pr.error.isNone, emptyDF, none, [], none, pr.error⟩

/-! ## Derived views of the pipeline (compositions of the source functions,
named so theorems can refer to the intermediate tables) -/

/-- The table `calculate_benefits(apply_eligibility_rules(df))`, written out:
eligibility columns added and then payout columns added, row by row. -/
def pipelineDF (df : DFrame) : DFrame :=
  ⟨addCol (addCol (rulesCols df.cols) "Ajuste_Sindicato") "Valor_Beneficio_Final",
   df.rows.map (fun r => benefitRow (ruleRow (rulesCols df.cols) r))⟩

/-- The tables `extract_zip_file` hands to `unify_dataframes`: the parsed
files, empty ones skipped. -/
def nonEmptyTables (files : List DFrame) : List DFrame :=
  files.filter (fun df => !df.isEmpty)

/-- The concatenated (standardized, not yet deduplicated) table. -/
def preUnified (files : List DFrame) : DFrame :=
  concatDF ((nonEmptyTables files).map standardize)

/-- The unified table `DataProcessorAgent.process` produces on success. -/
def unifiedOf (files : List DFrame) : DFrame :=
  if "MATRICULA" ∈ (preUnified files).cols then
    ⟨(preUnified files).cols, dedupByKey "MATRICULA" (preUnified files).rows []⟩
  else preUnified files

/-- The labels the role rule can emit. -/
def cargoLabels : List String :=
  ["Cargo: Estagiário", "Cargo: Aprendiz", "Cargo: Diretor"]

/-- The labels the status rule can emit. -/
def statusLabels : List String := ["Status: Afastado", "Status: Demitido"]

/-- The labels the group rule can emit. -/
def localLabels : List String := ["Localização: Exterior"]

/-- Every reason label the rules can emit, in check order. -/
def allLabels : List String := cargoLabels ++ statusLabels ++ localLabels

/-! ## Concrete bundles used to exercise the model -/

/-- One-file bundle: a single row with an id and a mapped union column. -/
def bundleA : List DFrame :=
  [⟨["MATRICULA", "Sindicato", "Valor_Beneficio_Base"],
    [[("MATRICULA", Value.str "1"), ("Sindicato", Value.str "SP"),
      ("Valor_Beneficio_Base", Value.str "100")]]⟩]

/-- One-file bundle whose table lacks any `Sindicato` column. -/
def bundleNoSind : List DFrame :=
  [⟨["MATRICULA"], [[("MATRICULA", Value.str "1")]]⟩]

/-- Scenario D bundle: two files, both holding a row with id "42" but
different other field values. -/
def bundleDup : List DFrame :=
  [⟨["MATRICULA", "EMPRESA"],
    [[("MATRICULA", Value.str "42"), ("EMPRESA", Value.str "A")]]⟩,
   ⟨["MATRICULA", "EMPRESA"],
    [[("MATRICULA", Value.str "42"), ("EMPRESA", Value.str "B")]]⟩]

/-- Two files with the same id and a union column, so the engine can run. -/
def bundleDupSind : List DFrame :=
  [⟨["MATRICULA", "Sindicato"],
    [[("MATRICULA", Value.str "42"), ("Sindicato", Value.str "SP")]]⟩,
   ⟨["MATRICULA", "Sindicato"],
    [[("MATRICULA", Value.str "42"), ("Sindicato", Value.str "RJ")]]⟩]

/-- One file with two rows that both lack a value in the id column. -/
def bundleNullIds : List DFrame :=
  [⟨["MATRICULA", "EMPRESA"],
    [[("EMPRESA", Value.str "A")], [("EMPRESA", Value.str "B")]]⟩]

/-- A mixed table: one excluded row (Cargo and Status both match) and one
eligible row. -/
def sampleUnified : DFrame :=
  ⟨["MATRICULA", "Cargo", "Status", "Sindicato", "Valor_Beneficio_Base"],
   [[("MATRICULA", Value.str "7"), ("Cargo", Value.str "Estagiário"),
     ("Status", Value.str "Afastado"), ("Sindicato", Value.str "SP"),
     ("Valor_Beneficio_Base", Value.num 100)],
    [("MATRICULA", Value.str "8"), ("Cargo", Value.str "Analista"),
     ("Status", Value.str "Ativo"), ("Sindicato", Value.str "RJ"),
     ("Valor_Beneficio_Base", Value.num 200)]]⟩

/-- A one-file bundle holding the mixed table. -/
def bundleMixed : List DFrame := [sampleUnified]

/-- Fixed placeholder narrative texts used when instantiating the model. -/
def someTexts : GeminiTexts := ⟨"a", "b", "c"⟩

/-- A record matching the role and group rules, with a null status field. -/
def sampleRuleRow : Row :=
  [("Cargo", Value.str "Diretor"), ("Status", Value.null),
   ("Sindicato", Value.str "Exterior")]

def sampleRuleCols : List String := ["Cargo", "Status", "Sindicato"]

/-- The summary the engine produces for `sampleUnified`. -/
def sampleSummary : Summary :=
  ⟨2, 1, 1, 270,
   [("SP", ⟨0, 0⟩), ("RJ", ⟨1, 270⟩), ("PR", ⟨0, 0⟩), ("RS", ⟨0, 0⟩)]⟩

/-- The fully processed first row of `sampleUnified` (excluded on two rules). -/
def sampleIneligRow : Row :=
  [("MATRICULA", Value.str "7"), ("Cargo", Value.str "Estagiário"),
   ("Status", Value.str "Afastado"), ("Sindicato", Value.str "SP"),
   ("Valor_Beneficio_Base", Value.num 100), ("Elegivel", Value.str "Não"),
   ("Motivo_Inelegibilidade", Value.str "Cargo: Estagiário; Status: Afastado"),
   ("Ajuste_Sindicato", Value.num 0), ("Valor_Beneficio_Final", Value.num 0)]

/-! ## Basic lemmas about rows and columns -/

theorem Row.get_set_self (r : Row) (k : String) (v : Value) : (r.set k v).get k = v := by
  induction r with
  | nil => simp [Row.set, Row.get]
  | cons p rest ih =>
    by_cases h : p.1 = k
    · simp [Row.set, h, Row.get]
    · simp [Row.set, h, Row.get, ih]

theorem Row.get_set_ne (r : Row) (k k2 : String) (v : Value) (h : k2 ≠ k) :
    (r.set k v).get k2 = r.get k2 := by
  induction r with
  | nil => simp [Row.set, Row.get, Ne.symm h]
  | cons p rest ih =>
    by_cases hp : p.1 = k
    · simp [Row.set, hp, Row.get, Ne.symm h]
    · simp [Row.set, hp, Row.get, ih]

theorem mem_addCol_self (cols : List String) (k : String) : k ∈ addCol cols k := by
  by_cases h : k ∈ cols <;> simp [addCol, h]

theorem mem_addCol_iff (cols : List String) (k c : String) :
    c ∈ addCol cols k ↔ c ∈ cols ∨ c = k := by
  by_cases h : k ∈ cols <;> simp [addCol, h]
  exact fun hc => hc ▸ h

/-! ## Lemmas about the exclusion rules -/

theorem checkRule_pos (cols : List String) (r : Row) (col lab : String) (excl : List String)
    (s : String) (h1 : col ∈ cols) (h2 : r.get col = Value.str s) (h3 : s ∈ excl) :
    checkRule cols r col lab excl = [lab ++ ": " ++ s] := by
  simp [checkRule, h1, h2, h3]

theorem checkRule_eq_nil_of (cols : List String) (r : Row) (col lab : String)
    (excl : List String) (h : col ∉ cols ∨ r.get col = Value.null) :
    checkRule cols r col lab excl = [] := by
  rcases h with h | h
  · simp [checkRule, h]
  · simp [checkRule, h]

theorem mem_checkRule (cols : List String) (r : Row) (col lab : String) (excl : List String)
    (m : String) (h : m ∈ checkRule cols r col lab excl) :
    ∃ s, s ∈ excl ∧ col ∈ cols ∧ r.get col = Value.str s ∧ m = lab ++ ": " ++ s := by
  unfold checkRule at h
  split at h
  · split at h
    · next s hs =>
      split at h
      · next hex => exact ⟨s, hex, by assumption, hs, by simpa using h⟩
      · simp at h
    · simp at h
  · simp at h

theorem checkRule_set_ne (cols : List String) (r : Row) (col lab k : String)
    (excl : List String) (v : Value) (h : k ≠ col) :
    checkRule cols (r.set k v) col lab excl = checkRule cols r col lab excl := by
  simp [checkRule, Row.get_set_ne r k col v (Ne.symm h)]

theorem checkRule_cols_congr (cols cols2 : List String) (r : Row) (col lab : String)
    (excl : List String) (h : col ∈ cols ↔ col ∈ cols2) :
    checkRule cols r col lab excl = checkRule cols2 r col lab excl := by
  by_cases hc : col ∈ cols
  · simp [checkRule, hc, h.mp hc]
  · have h2 : col ∉ cols2 := fun hh => hc (h.mpr hh)
    simp [checkRule, hc, h2]

theorem rowMotivos_set_ne (cols : List String) (r : Row) (k : String) (v : Value)
    (h1 : k ≠ "Cargo") (h2 : k ≠ "Status") (h3 : k ≠ "Sindicato") :
    rowMotivos cols (r.set k v) = rowMotivos cols r := by
  simp [rowMotivos, checkRule_set_ne cols r _ _ k _ v h1,
        checkRule_set_ne cols r _ _ k _ v h2, checkRule_set_ne cols r _ _ k _ v h3]

theorem rowMotivos_cols_congr (cols cols2 : List String) (r : Row)
    (h1 : "Cargo" ∈ cols ↔ "Cargo" ∈ cols2) (h2 : "Status" ∈ cols ↔ "Status" ∈ cols2)
    (h3 : "Sindicato" ∈ cols ↔ "Sindicato" ∈ cols2) :
    rowMotivos cols r = rowMotivos cols2 r := by
  simp only [rowMotivos, checkRule_cols_congr cols cols2 r _ _ _ h1,
    checkRule_cols_congr cols cols2 r _ _ _ h2, checkRule_cols_congr cols cols2 r _ _ _ h3]

theorem mem_rowMotivos (cols : List String) (r : Row) (m : String)
    (h : m ∈ rowMotivos cols r) : m ∈ allLabels := by
  simp only [rowMotivos, List.mem_append] at h
  rcases h with (h | h) | h
  · obtain ⟨s, hs, -, -, rfl⟩ := mem_checkRule _ _ _ _ _ _ h
    simp [cargos_inelegiveis] at hs
    rcases hs with rfl | rfl | rfl <;> decide
  · obtain ⟨s, hs, -, -, rfl⟩ := mem_checkRule _ _ _ _ _ _ h
    simp [status_inelegiveis] at hs
    rcases hs with rfl | rfl <;> decide
  · obtain ⟨s, hs, -, -, rfl⟩ := mem_checkRule _ _ _ _ _ _ h
    simp [locais_inelegiveis] at hs
    rcases hs with rfl
    decide

theorem allLabels_facts : ∀ m ∈ allLabels, 0 < m.length ∧ (';' ∈ m.data → False) := by
  decide

/-! ## Lemmas about joining and splitting reason strings -/

theorem joinStrs_length_pos (a : String) (rest : List String) (h : 0 < a.length) :
    0 < (joinStrs "; " (a :: rest)).length := by
  cases rest with
  | nil => simpa [joinStrs] using h
  | cons b t => simp [joinStrs, String.length_append]; omega

theorem joinStrs_ne_empty (a : String) (rest : List String) (h : 0 < a.length) :
    joinStrs "; " (a :: rest) ≠ "" := by
  intro hEq
  have hp := joinStrs_length_pos a rest h
  rw [hEq] at hp
  exact absurd hp (by decide)

theorem splitChar_ne_nil (c : Char) (l : List Char) : splitChar c l ≠ [] := by
  induction l with
  | nil => simp [splitChar]
  | cons x xs ih =>
    by_cases h : x = c
    · simp [splitChar, h]
    · cases hs : splitChar c xs with
      | nil => exact absurd hs ih
      | cons p ps => simp [splitChar, h, hs]

theorem splitChar_of_not_mem (c : Char) (l : List Char) (h : c ∉ l) : splitChar c l = [l] := by
  induction l with
  | nil => rfl
  | cons x xs ih =>
    have hx : ¬ x = c := by
      intro e
      exact h (e ▸ List.mem_cons_self x xs)
    have hxs : c ∉ xs := fun hc => h (List.mem_cons_of_mem _ hc)
    simp [splitChar, hx, ih hxs]

theorem splitChar_append_cons (c : Char) (xs ys : List Char) (h : c ∉ xs) :
    splitChar c (xs ++ c :: ys) = xs :: splitChar c ys := by
  induction xs with
  | nil => simp [splitChar]
  | cons x t ih =>
    have hx : ¬ x = c := by
      intro e
      exact h (e ▸ List.mem_cons_self x t)
    have ht : c ∉ t := fun hc => h (List.mem_cons_of_mem _ hc)
    simp [splitChar, hx, ih ht]

theorem length_splitChar_join (l : List String) (hl : ∀ m ∈ l, ';' ∉ m.data) :
    ∀ pre : List Char, ';' ∉ pre → l ≠ [] →
      (splitChar ';' (pre ++ (joinStrs "; " l).data)).length = l.length := by
  induction l with
  | nil => intro pre hpre hne; exact absurd rfl hne
  | cons a rest ih =>
    intro pre hpre _
    cases rest with
    | nil =>
      have hmem : ';' ∉ pre ++ a.data := by
        intro hm
        rcases List.mem_append.mp hm with hm | hm
        · exact hpre hm
        · exact hl a (List.mem_cons_self a []) hm
      rw [show joinStrs "; " [a] = a from rfl, splitChar_of_not_mem _ _ hmem]
      rfl
    | cons b t =>
      have hja : joinStrs "; " (a :: b :: t) = a ++ "; " ++ joinStrs "; " (b :: t) := rfl
      have hdata : (joinStrs "; " (a :: b :: t)).data
          = a.data ++ ';' :: ' ' :: (joinStrs "; " (b :: t)).data := by
        rw [hja, String.data_append, String.data_append, List.append_assoc]
        rfl
      have hpa : ';' ∉ pre ++ a.data := by
        intro hm
        rcases List.mem_append.mp hm with hm | hm
        · exact hpre hm
        · exact hl a (List.mem_cons_self a (b :: t)) hm
      have step : pre ++ (joinStrs "; " (a :: b :: t)).data
          = (pre ++ a.data) ++ ';' :: (' ' :: (joinStrs "; " (b :: t)).data) := by
        rw [hdata, List.append_assoc]
      rw [step, splitChar_append_cons _ _ _ hpa]
      have hrest := ih (fun m hm => hl m (List.mem_cons_of_mem a hm))
        [' '] (by decide) (by simp)
      simp only [List.length_cons]
      rw [show (' ' :: (joinStrs "; " (b :: t)).data)
            = [' '] ++ (joinStrs "; " (b :: t)).data from rfl, hrest]
      rfl

theorem length_splitSemicolon_join (l : List String) (hl : ∀ m ∈ l, ';' ∉ m.data)
    (hne : l ≠ []) : (splitSemicolon (joinStrs "; " l)).length = l.length := by
  have := length_splitChar_join l hl [] (by decide) hne
  simpa [splitSemicolon] using this

/-! ## Lemmas about deduplication -/

theorem dedupByKey_sublist (k : String) (rows : List Row) (seen : List Value) :
    (dedupByKey k rows seen).Sublist rows := by
  induction rows generalizing seen with
  | nil => simp [dedupByKey]
  | cons r rest ih =>
    by_cases h : Row.get r k ∈ seen
    · simp only [dedupByKey, if_pos h]
      exact (ih seen).trans (List.sublist_cons_self r rest)
    · simp only [dedupByKey, if_neg h]
      exact (ih _).cons₂ r

theorem dedupByKey_length_le (k : String) (rows : List Row) (seen : List Value) :
    (dedupByKey k rows seen).length ≤ rows.length :=
  (dedupByKey_sublist k rows seen).length_le

theorem get_not_mem_of_mem_dedupByKey (k : String) (rows : List Row) (seen : List Value)
    (r : Row) (h : r ∈ dedupByKey k rows seen) : Row.get r k ∉ seen := by
  induction rows generalizing seen with
  | nil => simp [dedupByKey] at h
  | cons r0 rest ih =>
    by_cases h0 : Row.get r0 k ∈ seen
    · rw [dedupByKey, if_pos h0] at h
      exact ih seen h
    · rw [dedupByKey, if_neg h0] at h
      rcases List.mem_cons.mp h with rfl | h
      · exact h0
      · intro hmem
        exact ih _ h (List.mem_cons_of_mem _ hmem)

theorem dedupByKey_pairwise (k : String) (rows : List Row) (seen : List Value) :
    (dedupByKey k rows seen).Pairwise (fun a b => Row.get a k ≠ Row.get b k) := by
  induction rows generalizing seen with
  | nil => simp [dedupByKey]
  | cons r0 rest ih =>
    by_cases h0 : Row.get r0 k ∈ seen
    · rw [dedupByKey, if_pos h0]
      exact ih seen
    · rw [dedupByKey, if_neg h0]
      refine List.Pairwise.cons ?_ (ih _)
      intro b hb heq
      exact get_not_mem_of_mem_dedupByKey k rest _ b hb (heq ▸ List.mem_cons_self _ _)

theorem first_mem_dedupByKey (k : String) (rows : List Row) (seen : List Value) :
    ∀ i (hi : i < rows.length),
      Row.get (rows.get ⟨i, hi⟩) k ∉ seen →
      (∀ j (hj : j < i), Row.get (rows.get ⟨j, Nat.lt_trans hj hi⟩) k
          ≠ Row.get (rows.get ⟨i, hi⟩) k) →
      rows.get ⟨i, hi⟩ ∈ dedupByKey k rows seen := by
  induction rows generalizing seen with
  | nil => intro i hi; simp at hi
  | cons r0 rest ih =>
    intro i hi hseen hfirst
    cases i with
    | zero =>
      simp only [List.get] at hseen ⊢
      rw [dedupByKey, if_neg hseen]
      exact List.mem_cons_self _ _
    | succ n =>
      simp only [List.get] at hseen hfirst ⊢
      by_cases h0 : Row.get r0 k ∈ seen
      · rw [dedupByKey, if_pos h0]
        exact ih seen n (Nat.lt_of_succ_lt_succ hi) hseen
          (fun j hj => hfirst (j + 1) (Nat.succ_lt_succ hj))
      · rw [dedupByKey, if_neg h0]
        refine List.mem_cons_of_mem _ ?_
        refine ih _ n (Nat.lt_of_succ_lt_succ hi) ?_
          (fun j hj => hfirst (j + 1) (Nat.succ_lt_succ hj))
        intro hmem
        rcases List.mem_cons.mp hmem with heq | hmem2
        · exact hfirst 0 (Nat.succ_pos n) heq.symm
        · exact hseen hmem2

theorem dedupByKey_ne_nil (k : String) (r0 : Row) (rest : List Row) :
    dedupByKey k (r0 :: rest) [] ≠ [] := by
  rw [dedupByKey, if_neg (List.not_mem_nil _)]
  simp

theorem null_mem_dedupByKey (k : String) (rows : List Row) :
    ∀ seen : List Value, Value.null ∉ seen →
      (rows.any (fun r => decide (Row.get r k = Value.null))) = true →
      ∃ r ∈ dedupByKey k rows seen, Row.get r k = Value.null := by
  induction rows with
  | nil => intro seen _ h; simp at h
  | cons r0 rest ih =>
    intro seen hns h
    by_cases h0 : Row.get r0 k = Value.null
    · rw [dedupByKey, if_neg (h0 ▸ hns)]
      exact ⟨r0, List.mem_cons_self _ _, h0⟩
    · have hrest : (rest.any (fun r => decide (Row.get r k = Value.null))) = true := by
        simp only [List.any_cons, Bool.or_eq_true, decide_eq_true_eq] at h
        rcases h with h | h
        · exact absurd h h0
        · simpa using h
      by_cases hseen : Row.get r0 k ∈ seen
      · rw [dedupByKey, if_pos hseen]
        exact ih seen hns hrest
      · rw [dedupByKey, if_neg hseen]
        have hns2 : Value.null ∉ Row.get r0 k :: seen := by
          intro hm
          rcases List.mem_cons.mp hm with he | hm2
          · exact h0 he.symm
          · exact hns hm2
        obtain ⟨r, hr, hnull⟩ := ih (Row.get r0 k :: seen) hns2 hrest
        exact ⟨r, List.mem_cons_of_mem _ hr, hnull⟩

theorem countP_le_one_of_pairwise (rows : List Row) (k : String)
    (h : rows.Pairwise (fun a b => Row.get a k ≠ Row.get b k)) (v : Value) :
    rows.countP (fun r => decide (Row.get r k = v)) ≤ 1 := by
  induction rows with
  | nil => simp
  | cons r0 rest ih =>
    rcases List.pairwise_cons.mp h with ⟨hr0, hrest⟩
    by_cases h0 : Row.get r0 k = v
    · have : rest.countP (fun r => decide (Row.get r k = v)) = 0 := by
        rw [List.countP_eq_zero]
        intro r hr
        simp only [decide_eq_true_eq]
        intro hv
        exact hr0 r hr (h0.trans hv.symm)
      simp [List.countP_cons, h0, this]
    · simp only [List.countP_cons, decide_eq_true_eq, h0]
      simpa using ih hrest

theorem dedupByKey_length_lt (k : String) (rows : List Row) (i j : ℕ)
    (hij : i < j) (hj : j < rows.length)
    (heq : Row.get (rows.get ⟨i, Nat.lt_trans hij hj⟩) k = Row.get (rows.get ⟨j, hj⟩) k) :
    (dedupByKey k rows []).length < rows.length := by
  rcases Nat.lt_or_ge (dedupByKey k rows []).length rows.length with h | h
  · exact h
  · exfalso
    have hlen : (dedupByKey k rows []).length = rows.length :=
      Nat.le_antisymm (dedupByKey_length_le k rows []) h
    have heqr : dedupByKey k rows [] = rows :=
      (dedupByKey_sublist k rows []).eq_of_length hlen
    have hpw := dedupByKey_pairwise k rows []
    rw [heqr] at hpw
    exact (List.pairwise_iff_get.mp hpw ⟨i, Nat.lt_trans hij hj⟩ ⟨j, hj⟩ hij) heq

/-! ## Lemmas about the per-row engine transformations -/

theorem rowMotivos_init (cols : List String) (r : Row) :
    rowMotivos cols
        ((r.set "Elegivel" (Value.str "Sim")).set "Motivo_Inelegibilidade" (Value.str ""))
      = rowMotivos cols r := by
  rw [rowMotivos_set_ne _ _ _ _ (by decide) (by decide) (by decide),
      rowMotivos_set_ne _ _ _ _ (by decide) (by decide) (by decide)]

theorem ruleRow_eq_pos (cols : List String) (r : Row) (hm : rowMotivos cols r = []) :
    ruleRow cols r
      = (r.set "Elegivel" (Value.str "Sim")).set "Motivo_Inelegibilidade" (Value.str "") := by
  simp [ruleRow, rowMotivos_init, hm]

theorem ruleRow_eq_neg (cols : List String) (r : Row) (hm : rowMotivos cols r ≠ []) :
    ruleRow cols r
      = (((r.set "Elegivel" (Value.str "Sim")).set "Motivo_Inelegibilidade"
          (Value.str "")).set "Elegivel" (Value.str "Não")).set "Motivo_Inelegibilidade"
          (Value.str (joinStrs "; " (rowMotivos cols r))) := by
  have hb : (rowMotivos cols r).isEmpty = false := by
    simpa [List.isEmpty_iff] using hm
  simp [ruleRow, rowMotivos_init, hb]

theorem ruleRow_get_elegivel (cols : List String) (r : Row) :
    (ruleRow cols r).get "Elegivel"
      = if rowMotivos cols r = [] then Value.str "Sim" else Value.str "Não" := by
  by_cases hm : rowMotivos cols r = []
  · rw [if_pos hm, ruleRow_eq_pos cols r hm,
      Row.get_set_ne _ _ _ _ (by decide), Row.get_set_self]
  · rw [if_neg hm, ruleRow_eq_neg cols r hm,
      Row.get_set_ne _ _ _ _ (by decide), Row.get_set_self]

theorem ruleRow_get_motivo (cols : List String) (r : Row) :
    (ruleRow cols r).get "Motivo_Inelegibilidade"
      = if rowMotivos cols r = [] then Value.str ""
        else Value.str (joinStrs "; " (rowMotivos cols r)) := by
  by_cases hm : rowMotivos cols r = []
  · rw [if_pos hm, ruleRow_eq_pos cols r hm, Row.get_set_self]
  · rw [if_neg hm, ruleRow_eq_neg cols r hm, Row.get_set_self]

theorem rowMotivos_ruleRow (cols cols2 : List String) (r : Row) :
    rowMotivos cols2 (ruleRow cols r) = rowMotivos cols2 r := by
  by_cases hm : rowMotivos cols r = []
  · rw [ruleRow_eq_pos cols r hm]
    exact rowMotivos_init cols2 r
  · rw [ruleRow_eq_neg cols r hm,
      rowMotivos_set_ne _ _ _ _ (by decide) (by decide) (by decide),
      rowMotivos_set_ne _ _ _ _ (by decide) (by decide) (by decide)]
    exact rowMotivos_init cols2 r

theorem benefitRow_r1_get (r : Row) (k : String) (h1 : k ≠ "Ajuste_Sindicato")
    (h2 : k ≠ "Valor_Beneficio_Final") :
    ((r.set "Ajuste_Sindicato" (Value.num 0)).set "Valor_Beneficio_Final"
      (Value.num 0)).get k = r.get k := by
  rw [Row.get_set_ne _ _ _ _ h2, Row.get_set_ne _ _ _ _ h1]

theorem benefitRow_eq_neg (r : Row) (h : r.get "Elegivel" ≠ Value.str "Sim") :
    benefitRow r
      = (r.set "Ajuste_Sindicato" (Value.num 0)).set "Valor_Beneficio_Final" (Value.num 0) := by
  simp [benefitRow, benefitRow_r1_get r "Elegivel" (by decide) (by decide), h]

theorem benefitRow_eq_pos (r : Row) (h : r.get "Elegivel" = Value.str "Sim") :
    benefitRow r
      = (((r.set "Ajuste_Sindicato" (Value.num 0)).set "Valor_Beneficio_Final"
          (Value.num 0)).set "Ajuste_Sindicato"
          (Value.num (lookupAdj (r.get "Sindicato")))).set "Valor_Beneficio_Final"
          (Value.num ((r.get "Valor_Beneficio_Base").toBase + lookupAdj (r.get "Sindicato"))) := by
  simp [benefitRow, benefitRow_r1_get r "Elegivel" (by decide) (by decide), h,
    benefitRow_r1_get r "Sindicato" (by decide) (by decide),
    benefitRow_r1_get r "Valor_Beneficio_Base" (by decide) (by decide)]

theorem benefitRow_get_elegivel (r : Row) :
    (benefitRow r).get "Elegivel" = r.get "Elegivel" := by
  by_cases h : r.get "Elegivel" = Value.str "Sim"
  · rw [benefitRow_eq_pos r h, Row.get_set_ne _ _ _ _ (by decide),
      Row.get_set_ne _ _ _ _ (by decide),
      benefitRow_r1_get r "Elegivel" (by decide) (by decide)]
  · rw [benefitRow_eq_neg r h, benefitRow_r1_get r "Elegivel" (by decide) (by decide)]

theorem benefitRow_get_motivo (r : Row) :
    (benefitRow r).get "Motivo_Inelegibilidade" = r.get "Motivo_Inelegibilidade" := by
  by_cases h : r.get "Elegivel" = Value.str "Sim"
  · rw [benefitRow_eq_pos r h, Row.get_set_ne _ _ _ _ (by decide),
      Row.get_set_ne _ _ _ _ (by decide),
      benefitRow_r1_get r "Motivo_Inelegibilidade" (by decide) (by decide)]
  · rw [benefitRow_eq_neg r h,
      benefitRow_r1_get r "Motivo_Inelegibilidade" (by decide) (by decide)]

theorem rowMotivos_benefitRow (cols : List String) (r : Row) :
    rowMotivos cols (benefitRow r) = rowMotivos cols r := by
  by_cases h : r.get "Elegivel" = Value.str "Sim"
  · rw [benefitRow_eq_pos r h,
      rowMotivos_set_ne _ _ _ _ (by decide) (by decide) (by decide),
      rowMotivos_set_ne _ _ _ _ (by decide) (by decide) (by decide),
      rowMotivos_set_ne _ _ _ _ (by decide) (by decide) (by decide),
      rowMotivos_set_ne _ _ _ _ (by decide) (by decide) (by decide)]
  · rw [benefitRow_eq_neg r h,
      rowMotivos_set_ne _ _ _ _ (by decide) (by decide) (by decide),
      rowMotivos_set_ne _ _ _ _ (by decide) (by decide) (by decide)]

theorem benefitRow_inelig (r : Row) (h : r.get "Elegivel" ≠ Value.str "Sim") :
    (benefitRow r).get "Ajuste_Sindicato" = Value.num 0 ∧
      (benefitRow r).get "Valor_Beneficio_Final" = Value.num 0 := by
  rw [benefitRow_eq_neg r h]
  constructor
  · rw [Row.get_set_ne _ _ _ _ (by decide), Row.get_set_self]
  · rw [Row.get_set_self]

/-! ## Lemmas about the engine as a whole -/

theorem calculate_benefits_apply (df : DFrame) :
    calculate_benefits (apply_eligibility_rules df) = Except.ok (pipelineDF df) := by
  have hE : "Elegivel" ∈ rulesCols df.cols := by
    unfold rulesCols
    exact (mem_addCol_iff _ _ _).mpr (Or.inl (mem_addCol_self _ _))
  simp [calculate_benefits, apply_eligibility_rules, pipelineDF, hE,
    List.map_map, Function.comp]

theorem mem_pipelineDF_cols_iff (df : DFrame) (c : String) :
    c ∈ (pipelineDF df).cols ↔ c ∈ df.cols ∨ c = "Elegivel" ∨ c = "Motivo_Inelegibilidade"
      ∨ c = "Ajuste_Sindicato" ∨ c = "Valor_Beneficio_Final" := by
  simp only [pipelineDF, rulesCols, mem_addCol_iff]
  tauto

theorem generate_summary_ok (df : DFrame) (h1 : "Elegivel" ∈ df.cols)
    (h2 : "Valor_Beneficio_Final" ∈ df.cols) (h3 : "Sindicato" ∈ df.cols) :
    generate_summary df = Except.ok (summaryOf df) := by
  simp [generate_summary, h1, h2, h3]

theorem breakdown_ok (df : DFrame) (h1 : "Elegivel" ∈ df.cols)
    (h2 : "Motivo_Inelegibilidade" ∈ df.cols) :
    get_ineligibility_breakdown df = Except.ok (breakdownOf df) := by
  by_cases hin : (df.rows.filter
      (fun r => decide (Row.get r "Elegivel" = Value.str "Não"))).isEmpty
  · have hnil : df.rows.filter
        (fun r => decide (Row.get r "Elegivel" = Value.str "Não")) = [] :=
      List.isEmpty_iff.mp hin
    simp [get_ineligibility_breakdown, h1, h2, hin, breakdownOf, hnil]
  · simp [get_ineligibility_breakdown, h1, h2, hin]

theorem engine_process_eq (unified : DFrame) (h1 : unified.isEmpty = false)
    (hs : "Sindicato" ∈ unified.cols) :
    EligibilityCalculatorAgent.process unified =
      ⟨true, pipelineDF unified, some (summaryOf (pipelineDF unified)),
       breakdownOf (pipelineDF unified), none⟩ := by
  have hE : "Elegivel" ∈ (pipelineDF unified).cols :=
    (mem_pipelineDF_cols_iff _ _).mpr (Or.inr (Or.inl rfl))
  have hM : "Motivo_Inelegibilidade" ∈ (pipelineDF unified).cols :=
    (mem_pipelineDF_cols_iff _ _).mpr (Or.inr (Or.inr (Or.inl rfl)))
  have hV : "Valor_Beneficio_Final" ∈ (pipelineDF unified).cols :=
    (mem_pipelineDF_cols_iff _ _).mpr (Or.inr (Or.inr (Or.inr (Or.inr rfl))))
  have hSi : "Sindicato" ∈ (pipelineDF unified).cols :=
    (mem_pipelineDF_cols_iff _ _).mpr (Or.inl hs)
  simp [EligibilityCalculatorAgent.process, h1, calculate_benefits_apply,
    generate_summary_ok _ hE hV hSi, breakdown_ok _ hE hM]

theorem engine_success_iff (u : DFrame) :
    (EligibilityCalculatorAgent.process u).success = true ↔
      (EligibilityCalculatorAgent.process u).error = none := by
  by_cases he : u.isEmpty = true
  · simp [EligibilityCalculatorAgent.process, he]
  · rcases hcb : calculate_benefits (apply_eligibility_rules u) with e | fd
    · simp [EligibilityCalculatorAgent.process, he, hcb]
    · rcases hgs : generate_summary fd with e | sm
      · simp [EligibilityCalculatorAgent.process, he, hcb, hgs]
      · rcases hbd : get_ineligibility_breakdown fd with e | bd
        · simp [EligibilityCalculatorAgent.process, he, hcb, hgs, hbd]
        · simp [EligibilityCalculatorAgent.process, he, hcb, hgs, hbd]

/-! ## Lemmas about ingestion and the coordinator -/

theorem unify_ok (files : List DFrame) (h : nonEmptyTables files ≠ []) :
    unify_dataframes (nonEmptyTables files) = Except.ok (unifiedOf files) := by
  have hne : (nonEmptyTables files).isEmpty = false := by
    rw [List.isEmpty_eq_false_iff_exists_mem]
    obtain ⟨x, hx⟩ := List.exists_mem_of_ne_nil _ h
    exact ⟨x, hx⟩
  by_cases hm : "MATRICULA" ∈ (preUnified files).cols
  · simp only [unify_dataframes, unifiedOf, preUnified, hne, Bool.false_eq_true,
      if_false] at hm ⊢
    rw [if_pos hm, if_pos hm]
  · simp only [unify_dataframes, unifiedOf, preUnified, hne, Bool.false_eq_true,
      if_false] at hm ⊢
    rw [if_neg hm, if_neg hm]

theorem processor_success (files : List DFrame) (h : nonEmptyTables files ≠ []) :
    DataProcessorAgent.process files =
      ⟨true, unifiedOf files, (nonEmptyTables files).length,
       (unifiedOf files).rows.length, (unifiedOf files).cols, none⟩ := by
  have hu := unify_ok files h
  simp only [DataProcessorAgent.process]
  rw [show List.filter (fun df => !df.isEmpty) files = nonEmptyTables files from rfl, hu]

theorem processor_fail (files : List DFrame) (h : nonEmptyTables files = []) :
    DataProcessorAgent.process files =
      ⟨false, emptyDF, 0, 0, [],
       some "Nenhum DataFrame válido encontrado para unificar"⟩ := by
  have hne : (files.filter (fun df => !df.isEmpty)).isEmpty = true := by
    rw [List.isEmpty_iff]
    exact h
  simp [DataProcessorAgent.process, unify_dataframes, hne]

theorem coordinator_fail1 (files : List DFrame) (ug av : Bool) (t : GeminiTexts)
    (h : nonEmptyTables files = []) :
    CoordinatorAgent.process files ug av t =
      ⟨false, emptyDF, none, [], none,
       some "Nenhum DataFrame válido encontrado para unificar"⟩ := by
  simp [CoordinatorAgent.process, processor_fail files h]

theorem coordinator_engine_fail (files : List DFrame) (ug av : Bool) (t : GeminiTexts)
    (h1 : nonEmptyTables files ≠ [])
    (h2 : (EligibilityCalculatorAgent.process (unifiedOf files)).success = false) :
    CoordinatorAgent.process files ug av t =
      ⟨false, emptyDF, none, [], none,
       (EligibilityCalculatorAgent.process (unifiedOf files)).error⟩ := by
  have herr : (EligibilityCalculatorAgent.process (unifiedOf files)).error ≠ none := by
    intro he
    have := (engine_success_iff (unifiedOf files)).mpr he
    rw [this] at h2
    exact absurd h2 (by decide)
  have hisn : (EligibilityCalculatorAgent.process (unifiedOf files)).error.isNone = false := by
    rcases hopt : (EligibilityCalculatorAgent.process (unifiedOf files)).error with _ | e
    · exact absurd hopt herr
    · rfl
  simp [CoordinatorAgent.process, processor_success files h1, h2, hisn]

theorem coordinator_success_nogemini (files : List DFrame) (av : Bool) (t : GeminiTexts)
    (h1 : nonEmptyTables files ≠ [])
    (h2 : (EligibilityCalculatorAgent.process (unifiedOf files)).success = true) :
    CoordinatorAgent.process files false av t =
      ⟨true, (EligibilityCalculatorAgent.process (unifiedOf files)).processed_df,
       (EligibilityCalculatorAgent.process (unifiedOf files)).summary,
       (EligibilityCalculatorAgent.process (unifiedOf files)).ineligibility_breakdown,
       none, none⟩ := by
  simp [CoordinatorAgent.process, processor_success files h1, h2]

theorem coordinator_success_gemini_avail (files : List DFrame) (t : GeminiTexts)
    (h1 : nonEmptyTables files ≠ [])
    (h2 : (EligibilityCalculatorAgent.process (unifiedOf files)).success = true) :
    CoordinatorAgent.process files true true t =
      ⟨true, (EligibilityCalculatorAgent.process (unifiedOf files)).processed_df,
       (EligibilityCalculatorAgent.process (unifiedOf files)).summary,
       (EligibilityCalculatorAgent.process (unifiedOf files)).ineligibility_breakdown,
       some t, none⟩ := by
  simp [CoordinatorAgent.process, processor_success files h1, h2, AnalysisAgent.process]

theorem coordinator_success_gemini_unavail (files : List DFrame) (t : GeminiTexts)
    (h1 : nonEmptyTables files ≠ [])
    (h2 : (EligibilityCalculatorAgent.process (unifiedOf files)).success = true) :
    CoordinatorAgent.process files true false t =
      ⟨false, (EligibilityCalculatorAgent.process (unifiedOf files)).processed_df,
       (EligibilityCalculatorAgent.process (unifiedOf files)).summary,
       (EligibilityCalculatorAgent.process (unifiedOf files)).ineligibility_breakdown,
       some unavailableTexts, some "API key do Google Gemini não configurada"⟩ := by
  simp [CoordinatorAgent.process, processor_success files h1, h2, AnalysisAgent.process]

theorem processor_success_iff (files : List DFrame) :
    (DataProcessorAgent.process files).success = true ↔
      (DataProcessorAgent.process files).error = none := by
  by_cases h : nonEmptyTables files = []
  · rw [processor_fail files h]
    simp
  · rw [processor_success files h]
    simp

/-! ## Arithmetic helper lemmas -/

theorem foldl_add_map (f : Row → ℚ) (rows : List Row) :
    ∀ acc : ℚ, rows.foldl (fun a r => a + f r) acc = acc + (rows.map f).sum := by
  induction rows with
  | nil => intro acc; simp
  | cons r t ih =>
    intro acc
    simp only [List.foldl_cons, List.map_cons, List.sum_cons, ih (acc + f r)]
    ring

theorem colSum_eq_map_sum (rows : List Row) (k : String) :
    colSum rows k = (rows.map (fun r => (Row.get r k).toQ)).sum := by
  simpa [colSum] using foldl_add_map (fun r => (Row.get r k).toQ) rows 0

theorem sumCounts_countInsert (l : List (String × ℕ)) (k : String) :
    sumCounts (countInsert l k) = sumCounts l + 1 := by
  induction l with
  | nil => simp [countInsert, sumCounts]
  | cons p t ih =>
    by_cases hp : p.1 = k
    · simp [countInsert, hp, sumCounts]
      omega
    · simp [countInsert, hp, sumCounts] at ih ⊢
      omega

theorem sumCounts_foldl_parts (parts : List String) :
    ∀ acc, sumCounts (parts.foldl (fun a2 m => countInsert a2 (strip m)) acc)
      = sumCounts acc + parts.length := by
  induction parts with
  | nil => intro acc; simp
  | cons m t ih =>
    intro acc
    simp only [List.foldl_cons, List.length_cons, ih (countInsert acc (strip m)),
      sumCounts_countInsert]
    omega

theorem sum_map_rows_filter_le (files : List DFrame) (p : DFrame → Bool) :
    ((files.filter p).map (fun df => df.rows.length)).sum
      ≤ (files.map (fun df => df.rows.length)).sum := by
  induction files with
  | nil => simp
  | cons a t ih =>
    by_cases hp : p a
    · simp only [List.filter_cons, hp, if_true, List.map_cons, List.sum_cons]
      omega
    · simp only [List.filter_cons, hp, Bool.false_eq_true, if_false, List.map_cons,
        List.sum_cons]
      omega

theorem preUnified_rows_length (files : List DFrame) :
    (preUnified files).rows.length
      = ((nonEmptyTables files).map (fun df => df.rows.length)).sum := by
  simp only [preUnified, concatDF, List.length_flatten, List.map_map]
  congr 1
  refine List.map_congr_left ?_
  intro df _
  simp [standardize, Function.comp]

theorem unifiedOf_cols (files : List DFrame) :
    (unifiedOf files).cols = (preUnified files).cols := by
  unfold unifiedOf
  split <;> rfl

theorem unifiedOf_rows_le (files : List DFrame) :
    (unifiedOf files).rows.length ≤ (preUnified files).rows.length := by
  unfold unifiedOf
  split
  · exact dedupByKey_length_le _ _ _
  · exact le_refl _

theorem unifiedOf_rows_ne_nil (files : List DFrame)
    (h : (preUnified files).rows ≠ []) : (unifiedOf files).rows ≠ [] := by
  unfold unifiedOf
  split
  · cases hr : (preUnified files).rows with
    | nil => exact absurd hr h
    | cons r0 rest =>
      simp only [hr]
      exact dedupByKey_ne_nil _ r0 rest
  · exact h

theorem unifiedOf_isEmpty_false (files : List DFrame)
    (h1 : (preUnified files).rows ≠ []) (h2 : (preUnified files).cols ≠ []) :
    (unifiedOf files).isEmpty = false := by
  have hr := unifiedOf_rows_ne_nil files h1
  have hc : (unifiedOf files).cols ≠ [] := by
    rw [unifiedOf_cols]
    exact h2
  simp [DFrame.isEmpty, hr, hc]

theorem preUnified_rows_ne_nil (files : List DFrame) (h : nonEmptyTables files ≠ []) :
    (preUnified files).rows ≠ [] := by
  cases hf : nonEmptyTables files with
  | nil => exact absurd hf h
  | cons d rest =>
    have hd : d ∈ nonEmptyTables files := hf ▸ List.mem_cons_self d rest
    have hdp : (!d.isEmpty) = true := (List.mem_filter.mp hd).2
    have hdr : d.rows ≠ [] := by
      simp only [DFrame.isEmpty, Bool.not_eq_true', Bool.or_eq_false_iff] at hdp
      exact fun he => by simp [he] at hdp
    have hlen : 0 < (preUnified files).rows.length := by
      rw [preUnified_rows_length, hf]
      simp only [List.map_cons, List.sum_cons]
      have : 0 < d.rows.length := List.length_pos.mpr hdr
      omega
    exact fun he => by simp [he] at hlen

/-! ## Inversion lemmas for the engine result -/

theorem generate_summary_ok_inv (df : DFrame) (sm : Summary)
    (h : generate_summary df = Except.ok sm) : sm = summaryOf df := by
  unfold generate_summary at h
  split at h
  · simp at h
  · split at h
    · simp at h
    · split at h
      · simp at h
      · exact (Except.ok.inj h).symm

theorem breakdown_ok_inv (df : DFrame) (bd : List (String × ℕ))
    (h : get_ineligibility_breakdown df = Except.ok bd) : bd = breakdownOf df := by
  by_cases h1 : "Elegivel" ∉ df.cols
  · simp [get_ineligibility_breakdown, h1] at h
  · by_cases h2 : (df.rows.filter
        (fun r => decide (Row.get r "Elegivel" = Value.str "Não"))).isEmpty
    · have hnil := List.isEmpty_iff.mp h2
      simp [get_ineligibility_breakdown, h1, h2] at h
      unfold breakdownOf
      rw [hnil, ← h]
      rfl
    · by_cases h3 : "Motivo_Inelegibilidade" ∉ df.cols
      · simp [get_ineligibility_breakdown, h1, h2, h3] at h
      · simp [get_ineligibility_breakdown, h1, h2, h3] at h
        exact h.symm

theorem engine_success_shape (u : DFrame)
    (h : (EligibilityCalculatorAgent.process u).success = true) :
    EligibilityCalculatorAgent.process u =
      ⟨true, pipelineDF u, some (summaryOf (pipelineDF u)),
       breakdownOf (pipelineDF u), none⟩ := by
  by_cases he : u.isEmpty = true
  · simp [EligibilityCalculatorAgent.process, he] at h
  · rcases hcb : calculate_benefits (apply_eligibility_rules u) with e | fd
    · simp [EligibilityCalculatorAgent.process, he, hcb] at h
    · have hfd : fd = pipelineDF u := by
        have h2 := calculate_benefits_apply u
        rw [hcb] at h2
        exact Except.ok.inj h2
      subst hfd
      rcases hgs : generate_summary (pipelineDF u) with e | sm
      · simp [EligibilityCalculatorAgent.process, he, hcb, hgs] at h
      · rcases hbd : get_ineligibility_breakdown (pipelineDF u) with e | bd
        · simp [EligibilityCalculatorAgent.process, he, hcb, hgs, hbd] at h
        · have hsm := generate_summary_ok_inv _ _ hgs
          have hb2 := breakdown_ok_inv _ _ hbd
          subst hsm
          subst hb2
          simp [EligibilityCalculatorAgent.process, he, hcb, hgs, hbd]

/-! ## Claim C4 -/

/-- Claim C4: for every row of the engine's output table, the eligible flag is
false (the string `Não`) if and only if that row's exclusion-reason field is a
non-empty string. -/
theorem C4_eligibility_totality (unified : DFrame) (r : Row)
    (hs : (EligibilityCalculatorAgent.process unified).success = true)
    (hr : r ∈ (EligibilityCalculatorAgent.process unified).processed_df.rows) :
    (Row.get r "Elegivel" = Value.str "Não"
      ↔ Row.get r "Motivo_Inelegibilidade" ≠ Value.str "") := by
  rw [engine_success_shape unified hs] at hr
  simp only [pipelineDF, List.mem_map] at hr
  obtain ⟨r0, hr0, rfl⟩ := hr
  rw [benefitRow_get_elegivel, benefitRow_get_motivo,
    ruleRow_get_elegivel, ruleRow_get_motivo]
  by_cases hm : rowMotivos (rulesCols unified.cols) r0 = []
  · rw [if_pos hm, if_pos hm]
    decide
  · rw [if_neg hm, if_neg hm]
    cases hml : rowMotivos (rulesCols unified.cols) r0 with
    | nil => exact absurd hml hm
    | cons a rest =>
      have ha : a ∈ rowMotivos (rulesCols unified.cols) r0 := by
        rw [hml]
        exact List.mem_cons_self a rest
      have hap := (allLabels_facts a (mem_rowMotivos _ _ a ha)).1
      have hj : joinStrs "; " (a :: rest) ≠ "" := joinStrs_ne_empty a rest hap
      simp [hml, hj]

/-- Witness for C4 at a concrete two-row table: the engine succeeds, the
excluded row is in the output, and the equivalence holds on it. -/
theorem C4_witness :
    (EligibilityCalculatorAgent.process sampleUnified).success = true
    ∧ sampleIneligRow ∈ (EligibilityCalculatorAgent.process sampleUnified).processed_df.rows
    ∧ (Row.get sampleIneligRow "Elegivel" = Value.str "Não"
        ↔ Row.get sampleIneligRow "Motivo_Inelegibilidade" ≠ Value.str "") :=
  ⟨by decide, by decide, C4_eligibility_totality sampleUnified sampleIneligRow
    (by decide) (by decide)⟩

/-! ## Claim C6 -/

/-- Claim C6: every ineligible row of the engine's output table carries the
payout columns, explicitly set to zero adjustment and zero final amount. -/
theorem C6_payout_zero (unified : DFrame) (r : Row)
    (hs : (EligibilityCalculatorAgent.process unified).success = true)
    (hr : r ∈ (EligibilityCalculatorAgent.process unified).processed_df.rows)
    (hin : Row.get r "Elegivel" = Value.str "Não") :
    Row.get r "Ajuste_Sindicato" = Value.num 0
    ∧ Row.get r "Valor_Beneficio_Final" = Value.num 0
    ∧ "Ajuste_Sindicato" ∈ (EligibilityCalculatorAgent.process unified).processed_df.cols
    ∧ "Valor_Beneficio_Final"
        ∈ (EligibilityCalculatorAgent.process unified).processed_df.cols := by
  rw [engine_success_shape unified hs] at hr ⊢
  simp only [pipelineDF, List.mem_map] at hr
  obtain ⟨r0, hr0, rfl⟩ := hr
  have hne : Row.get (ruleRow (rulesCols unified.cols) r0) "Elegivel" ≠ Value.str "Sim" := by
    rw [benefitRow_get_elegivel] at hin
    rw [hin]
    decide
  obtain ⟨hA, hV⟩ := benefitRow_inelig _ hne
  refine ⟨hA, hV, ?_, ?_⟩
  · exact (mem_pipelineDF_cols_iff _ _).mpr (Or.inr (Or.inr (Or.inr (Or.inl rfl))))
  · exact (mem_pipelineDF_cols_iff _ _).mpr (Or.inr (Or.inr (Or.inr (Or.inr rfl))))

/-- Witness for C6 on the same concrete table. -/
theorem C6_witness :
    (EligibilityCalculatorAgent.process sampleUnified).success = true
    ∧ sampleIneligRow ∈ (EligibilityCalculatorAgent.process sampleUnified).processed_df.rows
    ∧ Row.get sampleIneligRow "Elegivel" = Value.str "Não"
    ∧ (Row.get sampleIneligRow "Ajuste_Sindicato" = Value.num 0
        ∧ Row.get sampleIneligRow "Valor_Beneficio_Final" = Value.num 0
        ∧ "Ajuste_Sindicato"
            ∈ (EligibilityCalculatorAgent.process sampleUnified).processed_df.cols
        ∧ "Valor_Beneficio_Final"
            ∈ (EligibilityCalculatorAgent.process sampleUnified).processed_df.cols) :=
  ⟨by decide, by decide, by decide,
   C6_payout_zero sampleUnified sampleIneligRow (by decide) (by decide) (by decide)⟩

/-! ## Claim C7 -/

/-- Claim C7: the engine summary satisfies eligible + ineligible = total = row
count of the output table, and the grand total is exactly the sum of the final
amounts over the rows whose eligible flag is true. -/
theorem C7_summary_consistency (unified : DFrame) (sm : Summary)
    (hs : (EligibilityCalculatorAgent.process unified).success = true)
    (hsm : (EligibilityCalculatorAgent.process unified).summary = some sm) :
    sm.funcionarios_elegiveis + sm.funcionarios_inelegiveis = sm.total_funcionarios
    ∧ sm.total_funcionarios
        = (EligibilityCalculatorAgent.process unified).processed_df.rows.length
    ∧ sm.total_beneficio_geral
        = (((EligibilityCalculatorAgent.process unified).processed_df.rows.filter
            (fun r => decide (Row.get r "Elegivel" = Value.str "Sim"))).map
            (fun r => (Row.get r "Valor_Beneficio_Final").toQ)).sum := by
  rw [engine_success_shape unified hs] at hsm ⊢
  have hsm2 : sm = summaryOf (pipelineDF unified) := (Option.some.inj hsm).symm
  subst hsm2
  refine ⟨?_, rfl, ?_⟩
  · have hle := List.length_filter_le
      (fun r => decide (Row.get r "Elegivel" = Value.str "Sim")) (pipelineDF unified).rows
    simp only [summaryOf]
    omega
  · simp only [summaryOf, colSum_eq_map_sum]

/-- Witness for C7 on the concrete mixed table. -/
theorem C7_witness :
    (EligibilityCalculatorAgent.process sampleUnified).success = true
    ∧ (EligibilityCalculatorAgent.process sampleUnified).summary
        = some (summaryOf (pipelineDF sampleUnified))
    ∧ (let sm := summaryOf (pipelineDF sampleUnified)
       sm.funcionarios_elegiveis + sm.funcionarios_inelegiveis = sm.total_funcionarios
        ∧ sm.total_funcionarios
            = (EligibilityCalculatorAgent.process sampleUnified).processed_df.rows.length
        ∧ sm.total_beneficio_geral
            = (((EligibilityCalculatorAgent.process sampleUnified).processed_df.rows.filter
                (fun r => decide (Row.get r "Elegivel" = Value.str "Sim"))).map
                (fun r => (Row.get r "Valor_Beneficio_Final").toQ)).sum) :=
  ⟨by decide, by rw [engine_success_shape sampleUnified (by decide)],
   C7_summary_consistency sampleUnified (summaryOf (pipelineDF sampleUnified))
     (by decide) (by rw [engine_success_shape sampleUnified (by decide)])⟩

/-! ## Claim C8 -/

theorem mem_pipelineDF_cols_rules (unified : DFrame) (c : String)
    (h1 : c ≠ "Ajuste_Sindicato") (h2 : c ≠ "Valor_Beneficio_Final") :
    c ∈ (pipelineDF unified).cols ↔ c ∈ rulesCols unified.cols := by
  simp [pipelineDF, mem_addCol_iff, h1, h2]

theorem sumCounts_breakdownStep_row (acc : List (String × ℕ)) (r : Row) (m : List String)
    (hm : m ≠ []) (hlab : ∀ lab ∈ m, lab ∈ allLabels)
    (hget : Row.get r "Motivo_Inelegibilidade" = Value.str (joinStrs "; " m)) :
    sumCounts (breakdownStep acc r) = sumCounts acc + m.length := by
  cases m with
  | nil => exact absurd rfl hm
  | cons a rest =>
    have hap := (allLabels_facts a (hlab a (List.mem_cons_self a rest))).1
    have hne := joinStrs_ne_empty a rest hap
    have hsplit : (splitSemicolon (joinStrs "; " (a :: rest))).length = (a :: rest).length :=
      length_splitSemicolon_join (a :: rest)
        (fun s hs hc => (allLabels_facts s (hlab s hs)).2 hc) (by simp)
    unfold breakdownStep
    rw [hget]
    show sumCounts (if joinStrs "; " (a :: rest) = "" then acc
      else (splitSemicolon (joinStrs "; " (a :: rest))).foldl
        (fun a2 m => countInsert a2 (strip m)) acc) = _
    rw [if_neg hne, sumCounts_foldl_parts, hsplit]

theorem sumCounts_fold_rows (cols4 : List String) (rows : List Row)
    (H : ∀ r ∈ rows, ∃ m : List String, m ≠ [] ∧ (∀ lab ∈ m, lab ∈ allLabels)
      ∧ Row.get r "Motivo_Inelegibilidade" = Value.str (joinStrs "; " m)
      ∧ (rowMotivos cols4 r).length = m.length) :
    ∀ acc, sumCounts (rows.foldl breakdownStep acc)
      = sumCounts acc + (rows.map (fun r => (rowMotivos cols4 r).length)).sum := by
  induction rows with
  | nil => intro acc; simp
  | cons r t ih =>
    intro acc
    obtain ⟨m, hm, hlab, hget, hlen⟩ := H r (List.mem_cons_self r t)
    simp only [List.foldl_cons, List.map_cons, List.sum_cons]
    rw [ih (fun r2 hr2 => H r2 (List.mem_cons_of_mem r hr2)) (breakdownStep acc r),
      sumCounts_breakdownStep_row acc r m hm hlab hget, hlen]
    omega

/-- Claim C8: the sum of all histogram counts equals the total number of
exclusion reasons carried by the ineligible rows of the output table (one
count per reason, not one per record). -/
theorem C8_histogram_total (unified : DFrame)
    (hs : (EligibilityCalculatorAgent.process unified).success = true) :
    sumCounts (EligibilityCalculatorAgent.process unified).ineligibility_breakdown
      = (((EligibilityCalculatorAgent.process unified).processed_df.rows.filter
          (fun r => decide (Row.get r "Elegivel" = Value.str "Não"))).map
          (fun r => (rowMotivos
            (EligibilityCalculatorAgent.process unified).processed_df.cols r).length)).sum := by
  rw [engine_success_shape unified hs]
  show sumCounts (breakdownOf (pipelineDF unified)) = _
  unfold breakdownOf
  rw [sumCounts_fold_rows (pipelineDF unified).cols _ ?_ []]
  · simp [sumCounts]
  intro r hr
  rcases List.mem_filter.mp hr with ⟨hrmem, hrno⟩
  have hno : Row.get r "Elegivel" = Value.str "Não" := of_decide_eq_true hrno
  simp only [pipelineDF, List.mem_map] at hrmem
  obtain ⟨r0, hr0, rfl⟩ := hrmem
  have hmne : rowMotivos (rulesCols unified.cols) r0 ≠ [] := by
    intro hnil
    rw [benefitRow_get_elegivel, ruleRow_get_elegivel, if_pos hnil] at hno
    exact absurd hno (by decide)
  refine ⟨rowMotivos (rulesCols unified.cols) r0, hmne,
    fun lab hl => mem_rowMotivos _ _ lab hl, ?_, ?_⟩
  · rw [benefitRow_get_motivo, ruleRow_get_motivo, if_neg hmne]
  · have hc : rowMotivos (pipelineDF unified).cols
        (benefitRow (ruleRow (rulesCols unified.cols) r0))
        = rowMotivos (rulesCols unified.cols)
          (benefitRow (ruleRow (rulesCols unified.cols) r0)) := by
      refine rowMotivos_cols_congr _ _ _ ?_ ?_ ?_
      · exact mem_pipelineDF_cols_rules unified "Cargo" (by decide) (by decide)
      · exact mem_pipelineDF_cols_rules unified "Status" (by decide) (by decide)
      · exact mem_pipelineDF_cols_rules unified "Sindicato" (by decide) (by decide)
    rw [hc, rowMotivos_benefitRow, rowMotivos_ruleRow]

/-- Witness for C8 on the concrete mixed table (histogram total 2: one
excluded row carrying two reasons). -/
theorem C8_witness :
    (EligibilityCalculatorAgent.process sampleUnified).success = true
    ∧ sumCounts (EligibilityCalculatorAgent.process sampleUnified).ineligibility_breakdown
      = (((EligibilityCalculatorAgent.process sampleUnified).processed_df.rows.filter
          (fun r => decide (Row.get r "Elegivel" = Value.str "Não"))).map
          (fun r => (rowMotivos
            (EligibilityCalculatorAgent.process sampleUnified).processed_df.cols r).length)).sum :=
  ⟨by decide, C8_histogram_total sampleUnified (by decide)⟩

/-! ## Claim C5 -/

theorem checkRule_sublist (cols : List String) (r : Row) (col lab : String)
    (excl : List String) :
    (checkRule cols r col lab excl).Sublist (excl.map (fun s => lab ++ ": " ++ s)) := by
  unfold checkRule
  split
  · split
    · next s hs =>
      split
      · next hex =>
        exact List.singleton_sublist.mpr (List.mem_map_of_mem _ hex)
      · exact List.nil_sublist _
    · exact List.nil_sublist _
  · exact List.nil_sublist _

/-- Claim C5: the three exclusion rules are evaluated independently (no
short-circuiting, so several labels can accumulate on one record), the labels
appear in the fixed order role, status, group, and a missing or null field is
treated as non-matching for its rule — a record with all three fields absent
or null collects no reason at all. -/
theorem C5_rule_evaluation (cols : List String) (r : Row) :
    (∀ s, "Cargo" ∈ cols → Row.get r "Cargo" = Value.str s → s ∈ cargos_inelegiveis →
        ("Cargo: " ++ s) ∈ rowMotivos cols r)
    ∧ (∀ s, "Status" ∈ cols → Row.get r "Status" = Value.str s → s ∈ status_inelegiveis →
        ("Status: " ++ s) ∈ rowMotivos cols r)
    ∧ (∀ s, "Sindicato" ∈ cols → Row.get r "Sindicato" = Value.str s →
        s ∈ locais_inelegiveis → ("Localização: " ++ s) ∈ rowMotivos cols r)
    ∧ (rowMotivos cols r).Sublist allLabels
    ∧ (("Cargo" ∉ cols ∨ Row.get r "Cargo" = Value.null) →
        ∀ m ∈ rowMotivos cols r, m ∉ cargoLabels)
    ∧ (("Status" ∉ cols ∨ Row.get r "Status" = Value.null) →
        ∀ m ∈ rowMotivos cols r, m ∉ statusLabels)
    ∧ (("Sindicato" ∉ cols ∨ Row.get r "Sindicato" = Value.null) →
        ∀ m ∈ rowMotivos cols r, m ∉ localLabels)
    ∧ ((("Cargo" ∉ cols ∨ Row.get r "Cargo" = Value.null)
        ∧ ("Status" ∉ cols ∨ Row.get r "Status" = Value.null)
        ∧ ("Sindicato" ∉ cols ∨ Row.get r "Sindicato" = Value.null)) →
        rowMotivos cols r = []) := by
  refine ⟨?_, ?_, ?_, ?_, ?_, ?_, ?_, ?_⟩
  · intro s h1 h2 h3
    simp [rowMotivos, checkRule_pos cols r "Cargo" "Cargo" cargos_inelegiveis s h1 h2 h3]
  · intro s h1 h2 h3
    simp [rowMotivos, checkRule_pos cols r "Status" "Status" status_inelegiveis s h1 h2 h3]
  · intro s h1 h2 h3
    simp [rowMotivos,
      checkRule_pos cols r "Sindicato" "Localização" locais_inelegiveis s h1 h2 h3]
  · have hA := checkRule_sublist cols r "Cargo" "Cargo" cargos_inelegiveis
    have hB := checkRule_sublist cols r "Status" "Status" status_inelegiveis
    have hC := checkRule_sublist cols r "Sindicato" "Localização" locais_inelegiveis
    have hsplitL : allLabels
        = cargos_inelegiveis.map (fun s => "Cargo" ++ ": " ++ s)
          ++ status_inelegiveis.map (fun s => "Status" ++ ": " ++ s)
          ++ locais_inelegiveis.map (fun s => "Localização" ++ ": " ++ s) := by decide
    rw [rowMotivos, hsplitL]
    exact (hA.append hB).append hC
  · intro habs m hm
    rw [rowMotivos, checkRule_eq_nil_of cols r "Cargo" "Cargo" cargos_inelegiveis habs,
      List.nil_append] at hm
    rcases List.mem_append.mp hm with hm2 | hm2
    · obtain ⟨s, hs, -, -, rfl⟩ := mem_checkRule _ _ _ _ _ _ hm2
      simp [status_inelegiveis] at hs
      rcases hs with rfl | rfl <;> decide
    · obtain ⟨s, hs, -, -, rfl⟩ := mem_checkRule _ _ _ _ _ _ hm2
      simp [locais_inelegiveis] at hs
      rcases hs with rfl
      decide
  · intro habs m hm
    rw [rowMotivos, checkRule_eq_nil_of cols r "Status" "Status" status_inelegiveis habs,
      List.append_nil] at hm
    rcases List.mem_append.mp hm with hm2 | hm2
    · obtain ⟨s, hs, -, -, rfl⟩ := mem_checkRule _ _ _ _ _ _ hm2
      simp [cargos_inelegiveis] at hs
      rcases hs with rfl | rfl | rfl <;> decide
    · obtain ⟨s, hs, -, -, rfl⟩ := mem_checkRule _ _ _ _ _ _ hm2
      simp [locais_inelegiveis] at hs
      rcases hs with rfl
      decide
  · intro habs m hm
    rw [rowMotivos,
      checkRule_eq_nil_of cols r "Sindicato" "Localização" locais_inelegiveis habs,
      List.append_nil] at hm
    rcases List.mem_append.mp hm with hm2 | hm2
    · obtain ⟨s, hs, -, -, rfl⟩ := mem_checkRule _ _ _ _ _ _ hm2
      simp [cargos_inelegiveis] at hs
      rcases hs with rfl | rfl | rfl <;> decide
    · obtain ⟨s, hs, -, -, rfl⟩ := mem_checkRule _ _ _ _ _ _ hm2
      simp [status_inelegiveis] at hs
      rcases hs with rfl | rfl <;> decide
  · intro ⟨h1, h2, h3⟩
    rw [rowMotivos, checkRule_eq_nil_of cols r "Cargo" "Cargo" cargos_inelegiveis h1,
      checkRule_eq_nil_of cols r "Status" "Status" status_inelegiveis h2,
      checkRule_eq_nil_of cols r "Sindicato" "Localização" locais_inelegiveis h3]
    rfl

/-- Witness for C5: a record excluded by role and group (two labels, in
order) whose null status field does not match the status rule. -/
theorem C5_witness :
    ("Cargo: Diretor") ∈ rowMotivos sampleRuleCols sampleRuleRow
    ∧ ("Localização: Exterior") ∈ rowMotivos sampleRuleCols sampleRuleRow
    ∧ (rowMotivos sampleRuleCols sampleRuleRow).Sublist allLabels
    ∧ (∀ m ∈ rowMotivos sampleRuleCols sampleRuleRow, m ∉ statusLabels) :=
  ⟨(C5_rule_evaluation sampleRuleCols sampleRuleRow).1 "Diretor"
      (by decide) (by decide) (by decide),
   (C5_rule_evaluation sampleRuleCols sampleRuleRow).2.2.1 "Exterior"
      (by decide) (by decide) (by decide),
   (C5_rule_evaluation sampleRuleCols sampleRuleRow).2.2.2.1,
   (C5_rule_evaluation sampleRuleCols sampleRuleRow).2.2.2.2.2.1 (Or.inr (by decide))⟩

/-! ## Claim C9 -/

/-- Claim C9: when the id column is present, the unified table keeps each
surviving row intact and in concatenation order (sublist), keeps at most one
row per id value (pairwise distinct ids), and keeps precisely the
first-encountered row of every id value. -/
theorem C9_dedup_first_wins (dfs : List DFrame) (h1 : dfs ≠ [])
    (hM : "MATRICULA" ∈ (concatDF (dfs.map standardize)).cols) :
    ∃ u, unify_dataframes dfs = Except.ok u
      ∧ u.rows.Sublist (concatDF (dfs.map standardize)).rows
      ∧ u.rows.Pairwise (fun a b => Row.get a "MATRICULA" ≠ Row.get b "MATRICULA")
      ∧ ∀ i (hi : i < (concatDF (dfs.map standardize)).rows.length),
          (∀ j (hj : j < i), Row.get ((concatDF (dfs.map standardize)).rows.get
              ⟨j, Nat.lt_trans hj hi⟩) "MATRICULA"
            ≠ Row.get ((concatDF (dfs.map standardize)).rows.get ⟨i, hi⟩) "MATRICULA") →
          (concatDF (dfs.map standardize)).rows.get ⟨i, hi⟩ ∈ u.rows := by
  have hne : dfs.isEmpty = false := by
    simpa [List.isEmpty_iff] using h1
  refine ⟨⟨(concatDF (dfs.map standardize)).cols,
    dedupByKey "MATRICULA" (concatDF (dfs.map standardize)).rows []⟩, ?_, ?_, ?_, ?_⟩
  · simp [unify_dataframes, hne, hM]
  · exact dedupByKey_sublist _ _ _
  · exact dedupByKey_pairwise _ _ _
  · intro i hi hfirst
    exact first_mem_dedupByKey _ _ [] i hi (List.not_mem_nil _) hfirst

/-- Witness for C9 on the Scenario D bundle (two files, both with id 42). -/
theorem C9_witness :
    bundleDup ≠ []
    ∧ "MATRICULA" ∈ (concatDF (bundleDup.map standardize)).cols
    ∧ (∃ u, unify_dataframes bundleDup = Except.ok u
        ∧ u.rows.Sublist (concatDF (bundleDup.map standardize)).rows
        ∧ u.rows.Pairwise (fun a b => Row.get a "MATRICULA" ≠ Row.get b "MATRICULA")
        ∧ ∀ i (hi : i < (concatDF (bundleDup.map standardize)).rows.length),
            (∀ j (hj : j < i), Row.get ((concatDF (bundleDup.map standardize)).rows.get
                ⟨j, Nat.lt_trans hj hi⟩) "MATRICULA"
              ≠ Row.get ((concatDF (bundleDup.map standardize)).rows.get ⟨i, hi⟩)
                  "MATRICULA") →
            (concatDF (bundleDup.map standardize)).rows.get ⟨i, hi⟩ ∈ u.rows) :=
  ⟨by decide, by decide, C9_dedup_first_wins bundleDup (by decide) (by decide)⟩

/-! ## Claim C10 -/

/-- Counterexample to C10 as stated: a table whose id column exists but whose
two rows both lack an id value loses its second row — deduplication is not a
no-op on null-id rows (pandas treats NaN keys as equal). -/
theorem C10_counterexample :
    (DataProcessorAgent.process bundleNullIds).unified_df.rows
      = [[("EMPRESA", Value.str "A")]]
    ∧ (DataProcessorAgent.process bundleNullIds).total_records = 1 := by decide

/-- Claim C10 amended: rows without a usable id are deduplicated against each
other as if they shared one id value — the unified table keeps at most one
null-id row; whenever any source row has a null id, exactly one null-id row
survives, and the first-encountered null-id row (the one all of whose
predecessors have non-null ids) is the survivor. -/
theorem C10_null_id_dedup (dfs : List DFrame) (h1 : dfs ≠ [])
    (hM : "MATRICULA" ∈ (concatDF (dfs.map standardize)).cols) :
    ∃ u, unify_dataframes dfs = Except.ok u
      ∧ u.rows.countP (fun r => decide (Row.get r "MATRICULA" = Value.null)) ≤ 1
      ∧ (((concatDF (dfs.map standardize)).rows.any
            (fun r => decide (Row.get r "MATRICULA" = Value.null))) = true →
          u.rows.countP (fun r => decide (Row.get r "MATRICULA" = Value.null)) = 1)
      ∧ (∀ i (hi : i < (concatDF (dfs.map standardize)).rows.length),
          Row.get ((concatDF (dfs.map standardize)).rows.get ⟨i, hi⟩) "MATRICULA"
            = Value.null →
          (∀ j (hj : j < i), Row.get ((concatDF (dfs.map standardize)).rows.get
              ⟨j, Nat.lt_trans hj hi⟩) "MATRICULA" ≠ Value.null) →
          (concatDF (dfs.map standardize)).rows.get ⟨i, hi⟩ ∈ u.rows) := by
  have hne : dfs.isEmpty = false := by
    simpa [List.isEmpty_iff] using h1
  refine ⟨⟨(concatDF (dfs.map standardize)).cols,
    dedupByKey "MATRICULA" (concatDF (dfs.map standardize)).rows []⟩, ?_, ?_, ?_, ?_⟩
  · simp [unify_dataframes, hne, hM]
  · exact countP_le_one_of_pairwise _ _ (dedupByKey_pairwise _ _ _) Value.null
  · intro hany
    obtain ⟨r, hr, hnull⟩ :=
      null_mem_dedupByKey "MATRICULA" _ [] (List.not_mem_nil _) hany
    have hpos : 0 < (dedupByKey "MATRICULA" (concatDF (dfs.map standardize)).rows
        []).countP (fun r => decide (Row.get r "MATRICULA" = Value.null)) :=
      List.countP_pos_iff.mpr ⟨r, hr, by simpa using hnull⟩
    have hle := countP_le_one_of_pairwise _ "MATRICULA"
      (dedupByKey_pairwise "MATRICULA" (concatDF (dfs.map standardize)).rows []) Value.null
    exact Nat.le_antisymm hle hpos
  · intro i hi hnull hfirst
    refine first_mem_dedupByKey _ _ [] i hi (List.not_mem_nil _) ?_
    intro j hj
    rw [hnull]
    exact hfirst j hj

/-- Witness for the amended C10 on a one-file bundle with two null-id rows,
including the survivor-identity conjunct. -/
theorem C10_witness :
    bundleNullIds ≠ []
    ∧ "MATRICULA" ∈ (concatDF (bundleNullIds.map standardize)).cols
    ∧ (∃ u, unify_dataframes bundleNullIds = Except.ok u
        ∧ u.rows.countP (fun r => decide (Row.get r "MATRICULA" = Value.null)) ≤ 1
        ∧ (((concatDF (bundleNullIds.map standardize)).rows.any
              (fun r => decide (Row.get r "MATRICULA" = Value.null))) = true →
            u.rows.countP (fun r => decide (Row.get r "MATRICULA" = Value.null)) = 1)
        ∧ (∀ i (hi : i < (concatDF (bundleNullIds.map standardize)).rows.length),
            Row.get ((concatDF (bundleNullIds.map standardize)).rows.get ⟨i, hi⟩)
                "MATRICULA" = Value.null →
            (∀ j (hj : j < i), Row.get ((concatDF (bundleNullIds.map standardize)).rows.get
                ⟨j, Nat.lt_trans hj hi⟩) "MATRICULA" ≠ Value.null) →
            (concatDF (bundleNullIds.map standardize)).rows.get ⟨i, hi⟩ ∈ u.rows)) :=
  ⟨by decide, by decide, C10_null_id_dedup bundleNullIds (by decide) (by decide)⟩

/-! ## Claim C1 -/

/-- Counterexample to C1 as stated: a run with the narrative stage enabled and
the collaborator unavailable returns success = false with the error set, yet
the returned table is the fully computed two-row table, not empty. -/
theorem C1_counterexample :
    (CoordinatorAgent.process bundleMixed true false someTexts).success = false
    ∧ (CoordinatorAgent.process bundleMixed true false someTexts).processed_df.rows.length
        = 2
    ∧ (CoordinatorAgent.process bundleMixed true false someTexts).error ≠ none := by
  decide

/-- Claim C1 amended: success is true exactly when the error field is absent;
and on every failing run the returned table, summary and histogram are
empty/default, except when the failure arose in the narrative stage itself —
that is, ingestion and the engine had already succeeded and the enabled
collaborator was unavailable — in which case the returned table, summary and
histogram are exactly the values the engine computed, retained rather than
cleared. -/
theorem C1_entry_contract (files : List DFrame) (ug av : Bool) (t : GeminiTexts) :
    ((CoordinatorAgent.process files ug av t).success = true
      ↔ (CoordinatorAgent.process files ug av t).error = none)
    ∧ ((CoordinatorAgent.process files ug av t).success = false →
        ((CoordinatorAgent.process files ug av t).processed_df = emptyDF
          ∧ (CoordinatorAgent.process files ug av t).summary = none
          ∧ (CoordinatorAgent.process files ug av t).ineligibility_breakdown = [])
        ∨ (ug = true ∧ av = false
          ∧ (EligibilityCalculatorAgent.process (unifiedOf files)).success = true
          ∧ (CoordinatorAgent.process files ug av t).processed_df
              = (EligibilityCalculatorAgent.process (unifiedOf files)).processed_df
          ∧ (CoordinatorAgent.process files ug av t).summary
              = (EligibilityCalculatorAgent.process (unifiedOf files)).summary
          ∧ (CoordinatorAgent.process files ug av t).ineligibility_breakdown
              = (EligibilityCalculatorAgent.process
                  (unifiedOf files)).ineligibility_breakdown)) := by
  by_cases h1 : nonEmptyTables files = []
  · rw [coordinator_fail1 files ug av t h1]
    exact ⟨⟨fun h => absurd h (by decide), fun h => absurd h (by simp)⟩,
      fun _ => Or.inl ⟨rfl, rfl, rfl⟩⟩
  · cases hb : (EligibilityCalculatorAgent.process (unifiedOf files)).success
    · have herr : (EligibilityCalculatorAgent.process (unifiedOf files)).error ≠ none := by
        intro he
        have hT := (engine_success_iff _).mpr he
        rw [hT] at hb
        exact absurd hb (by decide)
      rw [coordinator_engine_fail files ug av t h1 hb]
      exact ⟨⟨fun h => absurd h (by simp), fun h => absurd h herr⟩,
        fun _ => Or.inl ⟨rfl, rfl, rfl⟩⟩
    · cases hug : ug
      · rw [coordinator_success_nogemini files av t h1 hb]
        exact ⟨by simp, fun h => absurd h (by simp)⟩
      · cases hav : av
        · rw [coordinator_success_gemini_unavail files t h1 hb]
          exact ⟨⟨fun h => absurd h (by simp), fun h => absurd h (by simp)⟩,
            fun _ => Or.inr ⟨rfl, rfl, hb ▸ rfl, rfl, rfl, rfl⟩⟩
        · rw [coordinator_success_gemini_avail files t h1 hb]
          exact ⟨by simp, fun h => absurd h (by simp)⟩

/-- Witness for the amended C1, discharging the failing-run implication at the
narrative-unavailable input, where the right-hand (retention) disjunct is the
one that holds. -/
theorem C1_witness :
    (CoordinatorAgent.process bundleMixed true false someTexts).success = false
    ∧ (((CoordinatorAgent.process bundleMixed true false someTexts).processed_df = emptyDF
        ∧ (CoordinatorAgent.process bundleMixed true false someTexts).summary = none
        ∧ (CoordinatorAgent.process bundleMixed true false someTexts).ineligibility_breakdown
            = [])
      ∨ (true = true ∧ false = false
        ∧ (EligibilityCalculatorAgent.process (unifiedOf bundleMixed)).success = true
        ∧ (CoordinatorAgent.process bundleMixed true false someTexts).processed_df
            = (EligibilityCalculatorAgent.process (unifiedOf bundleMixed)).processed_df
        ∧ (CoordinatorAgent.process bundleMixed true false someTexts).summary
            = (EligibilityCalculatorAgent.process (unifiedOf bundleMixed)).summary
        ∧ (CoordinatorAgent.process bundleMixed true false someTexts).ineligibility_breakdown
            = (EligibilityCalculatorAgent.process
                (unifiedOf bundleMixed)).ineligibility_breakdown)) :=
  ⟨by decide, (C1_entry_contract bundleMixed true false someTexts).2 (by decide)⟩

/-! ## Claim C2 -/

/-- Counterexample to C2 as stated: the same bundle succeeds with the
narrative stage disabled, but enabling it with the collaborator unavailable
flips the overall success flag to false instead of leaving it true. -/
theorem C2_counterexample :
    (CoordinatorAgent.process bundleA false false someTexts).success = true
    ∧ (CoordinatorAgent.process bundleA true false someTexts).success = false := by
  decide

/-- Claim C2 amended: when ingestion and the engine succeed, running the
narrative stage never alters the computed table, summary or histogram, and
placeholder text is substituted for the narrative; with the collaborator
available the run stays successful, but with it unavailable the error field is
set and the overall success flag becomes false. -/
theorem C2_narrative_isolation (files : List DFrame) (av : Bool) (t : GeminiTexts)
    (h : (CoordinatorAgent.process files false av t).success = true) :
    (CoordinatorAgent.process files true av t).processed_df
        = (CoordinatorAgent.process files false av t).processed_df
    ∧ (CoordinatorAgent.process files true av t).summary
        = (CoordinatorAgent.process files false av t).summary
    ∧ (CoordinatorAgent.process files true av t).ineligibility_breakdown
        = (CoordinatorAgent.process files false av t).ineligibility_breakdown
    ∧ (av = true → (CoordinatorAgent.process files true av t).success = true
        ∧ (CoordinatorAgent.process files true av t).error = none
        ∧ (CoordinatorAgent.process files true av t).gemini_analysis = some t)
    ∧ (av = false → (CoordinatorAgent.process files true av t).success = false
        ∧ (CoordinatorAgent.process files true av t).error
            = some "API key do Google Gemini não configurada"
        ∧ (CoordinatorAgent.process files true av t).gemini_analysis
            = some unavailableTexts) := by
  by_cases h1 : nonEmptyTables files = []
  · rw [coordinator_fail1 files false av t h1] at h
    exact absurd h (by decide)
  · cases hb : (EligibilityCalculatorAgent.process (unifiedOf files)).success
    · rw [coordinator_engine_fail files false av t h1 hb] at h
      simp at h
    · cases hav : av
      · rw [coordinator_success_gemini_unavail files t h1 hb,
          coordinator_success_nogemini files false t h1 hb]
        exact ⟨rfl, rfl, rfl, fun hc => absurd hc (by decide),
          fun _ => ⟨rfl, rfl, rfl⟩⟩
      · rw [coordinator_success_gemini_avail files t h1 hb,
          coordinator_success_nogemini files true t h1 hb]
        exact ⟨rfl, rfl, rfl, fun _ => ⟨rfl, rfl, rfl⟩,
          fun hc => absurd hc (by decide)⟩

/-- Witness for the amended C2 at a bundle whose engine run succeeds, with the
collaborator unavailable. -/
theorem C2_witness :
    (CoordinatorAgent.process bundleA false false someTexts).success = true
    ∧ ((CoordinatorAgent.process bundleA true false someTexts).processed_df
          = (CoordinatorAgent.process bundleA false false someTexts).processed_df
      ∧ (CoordinatorAgent.process bundleA true false someTexts).summary
          = (CoordinatorAgent.process bundleA false false someTexts).summary
      ∧ (CoordinatorAgent.process bundleA true false someTexts).ineligibility_breakdown
          = (CoordinatorAgent.process bundleA false false someTexts).ineligibility_breakdown
      ∧ (false = true → (CoordinatorAgent.process bundleA true false someTexts).success = true
          ∧ (CoordinatorAgent.process bundleA true false someTexts).error = none
          ∧ (CoordinatorAgent.process bundleA true false someTexts).gemini_analysis
              = some someTexts)
      ∧ (false = false →
          (CoordinatorAgent.process bundleA true false someTexts).success = false
          ∧ (CoordinatorAgent.process bundleA true false someTexts).error
              = some "API key do Google Gemini não configurada"
          ∧ (CoordinatorAgent.process bundleA true false someTexts).gemini_analysis
              = some unavailableTexts)) :=
  ⟨by decide, C2_narrative_isolation bundleA false someTexts (by decide)⟩

/-! ## Claim C3 -/

/-- Counterexample to C3 as stated: a bundle with one non-empty table but no
group (`Sindicato`) column makes the engine raise a `KeyError` inside summary
generation, so the top-level process reports failure even though a non-empty
table was parsed. -/
theorem C3_counterexample :
    nonEmptyTables bundleNoSind ≠ []
    ∧ (CoordinatorAgent.process bundleNoSind false false someTexts).success = false
    ∧ (CoordinatorAgent.process bundleNoSind false false someTexts).error
        = some "\x27Sindicato\x27" := by
  decide

/-- Claim C3 amended: for every bundle with at least one non-empty parsed
table whose unified table carries a `Sindicato` column, and with the narrative
stage disabled or its collaborator available, the top-level process succeeds;
the output row count is at most the sum of the input tables' row counts, and
strictly smaller whenever two concatenated rows share the same id value. -/
theorem C3_success_and_rowcount (files : List DFrame) (ug av : Bool) (t : GeminiTexts)
    (h1 : nonEmptyTables files ≠ [])
    (hs : "Sindicato" ∈ (preUnified files).cols)
    (hg : ug = false ∨ av = true) :
    (CoordinatorAgent.process files ug av t).success = true
    ∧ (CoordinatorAgent.process files ug av t).processed_df.rows.length
        ≤ (files.map (fun df => df.rows.length)).sum
    ∧ (∀ i j (hij : i < j) (hj : j < (preUnified files).rows.length),
        "MATRICULA" ∈ (preUnified files).cols →
        Row.get ((preUnified files).rows.get ⟨i, Nat.lt_trans hij hj⟩) "MATRICULA"
          = Row.get ((preUnified files).rows.get ⟨j, hj⟩) "MATRICULA" →
        (CoordinatorAgent.process files ug av t).processed_df.rows.length
          < (files.map (fun df => df.rows.length)).sum) := by
  have hcols : (preUnified files).cols ≠ [] := by
    intro he
    rw [he] at hs
    exact absurd hs (List.not_mem_nil _)
  have hrows := preUnified_rows_ne_nil files h1
  have hie := unifiedOf_isEmpty_false files hrows hcols
  have hsu : "Sindicato" ∈ (unifiedOf files).cols := by
    rw [unifiedOf_cols]
    exact hs
  have heng := engine_process_eq (unifiedOf files) hie hsu
  have hengT : (EligibilityCalculatorAgent.process (unifiedOf files)).success = true := by
    rw [heng]
  have hproc : (CoordinatorAgent.process files ug av t).success = true
      ∧ (CoordinatorAgent.process files ug av t).processed_df
        = (EligibilityCalculatorAgent.process (unifiedOf files)).processed_df := by
    rcases hg with rfl | hav
    · rw [coordinator_success_nogemini files av t h1 hengT]
      exact ⟨rfl, rfl⟩
    · cases hug : ug
      · rw [coordinator_success_nogemini files av t h1 hengT]
        exact ⟨rfl, rfl⟩
      · rw [hav, coordinator_success_gemini_avail files t h1 hengT]
        exact ⟨rfl, rfl⟩
  obtain ⟨hsucc, hpdf⟩ := hproc
  have hlen : (EligibilityCalculatorAgent.process (unifiedOf files)).processed_df.rows.length
      = (unifiedOf files).rows.length := by
    rw [heng]
    simp [pipelineDF]
  have hsum : (preUnified files).rows.length ≤ (files.map (fun df => df.rows.length)).sum := by
    rw [preUnified_rows_length]
    exact sum_map_rows_filter_le files _
  refine ⟨hsucc, ?_, ?_⟩
  · rw [hpdf, hlen]
    exact le_trans (unifiedOf_rows_le files) hsum
  · intro i j hij hj hM heq
    rw [hpdf, hlen]
    have hlt : (unifiedOf files).rows.length < (preUnified files).rows.length := by
      unfold unifiedOf
      rw [if_pos hM]
      exact dedupByKey_length_lt "MATRICULA" _ i j hij hj heq
    exact lt_of_lt_of_le hlt hsum

/-- Witness for the amended C3 on a two-file bundle sharing id 42, with an
instance of the strict inequality. -/
theorem C3_witness :
    nonEmptyTables bundleDupSind ≠ []
    ∧ "Sindicato" ∈ (preUnified bundleDupSind).cols
    ∧ (CoordinatorAgent.process bundleDupSind false false someTexts).success = true
    ∧ (CoordinatorAgent.process bundleDupSind false false someTexts).processed_df.rows.length
        ≤ (bundleDupSind.map (fun df => df.rows.length)).sum
    ∧ (CoordinatorAgent.process bundleDupSind false false someTexts).processed_df.rows.length
        < (bundleDupSind.map (fun df => df.rows.length)).sum :=
  ⟨by decide, by decide,
   (C3_success_and_rowcount bundleDupSind false false someTexts (by decide) (by decide)
      (Or.inl rfl)).1,
   (C3_success_and_rowcount bundleDupSind false false someTexts (by decide) (by decide)
      (Or.inl rfl)).2.1,
   (C3_success_and_rowcount bundleDupSind false false someTexts (by decide) (by decide)
      (Or.inl rfl)).2.2 0 1 (by decide) (by decide) (by decide) (by decide)⟩

end BenefitApp
